import Mathlib

/-!
Verification of the youki container builder and rootfs mount engine
(crates/libcontainer/src/container/builder_impl.rs and
crates/libcontainer/src/rootfs/mount.rs) against their specification.

The embedding is shallow: each Rust function is translated into a Lean
function over explicit state.  External collaborators (the syscall
adapter, libcgroups probes, the filesystem, utils::parse_mount,
utils::secure_join, PathBufExt::join_safely, hook execution, the init
process) are supplied through environment records of fallible functions,
mirroring the trait-object / crate boundaries of the source.  Paths are
modelled as lists of components of an absolute path.  Mount flag words
are modelled as natural numbers with the Linux MS_* bit values.
-/

/-! ## Paths and mount flags -/

/-- Absolute filesystem path, as its list of components
(PathBuf in the source). -/
abbrev FsPath := List String

/-- Rendering of a path used inside error messages
(the Rust code formats paths with the Debug formatter). -/
def pathStr (p : FsPath) : String :=
  "/" ++ String.intercalate "/" p

/-- Parent of a path: Path::parent, dropping the last component.
(For the root path the Rust version returns None and the source
unwraps; the model totalises that corner to the root itself.) -/
def parentPath (p : FsPath) : FsPath := p.dropLast

def MS_RDONLY : Nat := 1

def MS_NOSUID : Nat := 2

def MS_NODEV : Nat := 4

def MS_NOEXEC : Nat := 8

def MS_REMOUNT : Nat := 32

def MS_BIND : Nat := 4096

def MS_REC : Nat := 16384

def MS_PRIVATE : Nat := 262144

def MS_SLAVE : Nat := 524288

def MS_SHARED : Nat := 1048576

/-- Union of the flags that are exempt from the bind remount in
mount_into_container: MS_REC | MS_REMOUNT | MS_BIND | MS_PRIVATE |
MS_SHARED | MS_SLAVE. -/
def REMOUNT_EXEMPT_MASK : Nat :=
  MS_REC ||| MS_REMOUNT ||| MS_BIND ||| MS_PRIVATE ||| MS_SHARED ||| MS_SLAVE

/-- Embeds flags.intersects(!(MS_REC | MS_REMOUNT | MS_BIND | MS_PRIVATE |
MS_SHARED | MS_SLAVE)) from mount_into_container.  For a bitflags value
the complement-intersects test holds exactly when the word has a set bit
outside the mask, i.e. when masking with the mask changes the word. -/
def remountFlagsPresent (flags : Nat) : Bool :=
  (flags &&& REMOUNT_EXEMPT_MASK) != flags

/-- Embeds flags &= !MS_RDONLY (and any other single-mask clear):
remove from flags every bit of mask. -/
def clearFlags (flags mask : Nat) : Nat :=
  flags ^^^ (flags &&& mask)

/-- ContainerType from process::args: init or tenant container. -/
inductive ContainerType
  | InitContainer
  | TenantContainer
deriving DecidableEq, Repr

/-- ContainerStatus from container::state. -/
inductive ContainerStatus
  | Creating
  | Created
  | Running
  | Stopped
  | Paused
deriving DecidableEq, Repr

/-- The persisted container record, with the fields builder_impl.rs
reads and writes.  rootExists models container.root.exists(). -/
structure ContainerRecord where
  id : String
  status : ContainerStatus
  pid : Int
  creator : Nat
  cleanUpIntelRdt : Option Bool
  root : String
  rootExists : Bool
deriving DecidableEq, Repr

/-- The linux section of the OCI spec, restricted to the fields
builder_impl.rs consumes. -/
structure LinuxSpec where
  cgroupsPath : Option String
  namespaces : Option (List String)
deriving DecidableEq, Repr

/-- The process section of the OCI spec, restricted to the fields
builder_impl.rs consumes. -/
structure ProcessSpec where
  oomScoreAdj : Option Int
deriving DecidableEq, Repr

/-- The hooks section of the OCI spec; createRuntime hook names. -/
structure HooksSpec where
  createRuntime : Option (List String)
deriving DecidableEq, Repr

/-- The OCI spec document, restricted to the fields builder_impl.rs
consumes. -/
structure SpecDoc where
  linux : Option LinuxSpec
  process : Option ProcessSpec
  hooks : Option HooksSpec
deriving DecidableEq, Repr

/-- The fields of ContainerBuilderImpl that create, run_container and
cleanup_container read. -/
structure Builder where
  containerType : ContainerType
  useSystemd : Bool
  containerId : String
  spec : SpecDoc
  pidFile : Option String
  container : Option ContainerRecord
  rootless : Bool
deriving Repr

/-- Observable actions of run_container, in program order. -/
inductive RunEvent
  | createCgroupManager
  | runCreateRuntimeHooks
  | createNotifySocket
  | writeOomScoreAdj (v : Int)
  | setDumpableFalse
  | callMainProcess
  | writePidFile (pid : Int)
  | saveContainer
deriving DecidableEq, Repr

/-- Results of the external collaborators run_container calls into:
cgroup manager construction, hook execution, the notify listener bind,
the oom_score_adj write, the init main process, the pid-file write and
the state save.  An anyhow error is modelled by its display message. -/
structure RunEnv where
  cgroupManager : Except String Unit
  hooksResult : Except String Unit
  notifyResult : Except String Unit
  oomWriteResult : Except String Unit
  mainProcess : Except String (Int × Bool)
  pidFileWrite : Except String Unit
  saveResult : Except String Unit
  euid : Nat
deriving Repr

/-- An anyhow::Error, modelled as its chain of context messages,
outermost first.  Error::context prepends a message. -/
abbrev ErrChain := List String

/-- Sequencing combinator for the builder: run a step that produces a
trace of observable actions and a result; on success continue, on
failure stop, keeping the trace accumulated so far (the behaviour of
the ? operator in the source, made explicit so the action trace is
observable). -/
def runBind {A B : Type} (x : List RunEvent × Except ErrChain A)
    (f : A → List RunEvent × Except ErrChain B) :
    List RunEvent × Except ErrChain B :=
  match x with
  | (t, .error e) => (t, .error e)
  | (t, .ok a) => ((t ++ (f a).1), (f a).2)

/-- Lift of a collaborator result into an error chain of one message
(a bare ? on an anyhow error). -/
def errCtx {A : Type} : Except String A → Except ErrChain A
  | .error e => .error [e]
  | .ok a => .ok a

/-- Hook step of run_container (builder_impl.rs lines 85-89): for an
init container with a hooks section, run the createRuntime hooks. -/
def hooksStep (b : Builder) (env : RunEnv) :
    List RunEvent × Except ErrChain Unit :=
  if b.containerType = ContainerType.InitContainer then
    match b.spec.hooks with
    | some _ => ([RunEvent.runCreateRuntimeHooks], errCtx env.hooksResult)
    | none => ([], .ok ())
  else ([], .ok ())

/-- Oom step of run_container (builder_impl.rs lines 106-110): when the
spec sets oom_score_adj, write it to /proc/self/oom_score_adj. -/
def oomStep (process : ProcessSpec) (env : RunEnv) :
    List RunEvent × Except ErrChain Unit :=
  match process.oomScoreAdj with
  | some v => ([RunEvent.writeOomScoreAdj v], errCtx env.oomWriteResult)
  | none => ([], .ok ())

/-- Dumpable step of run_container (builder_impl.rs lines 120-122): set
the process non-dumpable exactly when namespaces are declared.  The
source unwraps the prctl result, so the step never fails. -/
def dumpableStep (linux : LinuxSpec) :
    List RunEvent × Except ErrChain Unit :=
  ( if linux.namespaces.isSome then [RunEvent.setDumpableFalse] else []
  , .ok () )

/-- Pid-file step of run_container (builder_impl.rs lines 146-148):
when a pid file is configured, write the init pid to it. -/
def pidFileStep (b : Builder) (env : RunEnv) (initPid : Int) :
    List RunEvent × Except ErrChain Unit :=
  match b.pidFile with
  | some _ =>
    ( [RunEvent.writePidFile initPid]
    , match env.pidFileWrite with
      | .error e => .error ["failed to write pid file", e]
      | .ok () => .ok () )
  | none => ([], .ok ())

/-- Save step of run_container (builder_impl.rs lines 150-161): when a
container record is present, update its status, creator, pid and
intel-rdt cleanup flag and persist it. -/
def saveStep (b : Builder) (env : RunEnv) (initPid : Int)
    (needRdtCleanup : Bool) :
    List RunEvent × Except ErrChain (Int × Option ContainerRecord) :=
  match b.container with
  | some c =>
    ( [RunEvent.saveContainer]
    , match env.saveResult with
      | .error e => .error ["Failed to save container state", e]
      | .ok () =>
        .ok (initPid, some
          { c with
            status := ContainerStatus.Created
            creator := env.euid
            pid := initPid
            cleanUpIntelRdt := some needRdtCleanup }) )
  | none => ([], .ok (initPid, none))

/-- Tail of run_container from the pid-file write on. -/
def run_from_pid (b : Builder) (env : RunEnv) (pr : Int × Bool) :
    List RunEvent × Except ErrChain (Int × Option ContainerRecord) :=
  runBind (pidFileStep b env pr.1) fun _ => saveStep b env pr.1 pr.2

/-- Tail of run_container from the init main-process call on
(builder_impl.rs lines 142-143). -/
def run_from_main (b : Builder) (env : RunEnv) :
    List RunEvent × Except ErrChain (Int × Option ContainerRecord) :=
  runBind ([RunEvent.callMainProcess], errCtx env.mainProcess) fun pr =>
    run_from_pid b env pr

/-- Tail of run_container from the dumpable step on. -/
def run_from_dumpable (b : Builder) (env : RunEnv) (linux : LinuxSpec) :
    List RunEvent × Except ErrChain (Int × Option ContainerRecord) :=
  runBind (dumpableStep linux) fun _ => run_from_main b env

/-- Tail of run_container from the oom step on. -/
def run_from_oom (b : Builder) (env : RunEnv) (linux : LinuxSpec)
    (process : ProcessSpec) :
    List RunEvent × Except ErrChain (Int × Option ContainerRecord) :=
  runBind (oomStep process env) fun _ => run_from_dumpable b env linux

/-- Tail of run_container from the notify-listener bind on
(builder_impl.rs line 95). -/
def run_from_notify (b : Builder) (env : RunEnv) (linux : LinuxSpec)
    (process : ProcessSpec) :
    List RunEvent × Except ErrChain (Int × Option ContainerRecord) :=
  runBind ([RunEvent.createNotifySocket], errCtx env.notifyResult) fun _ =>
    run_from_oom b env linux process

/-- Tail of run_container from the hook step on. -/
def run_from_hooks (b : Builder) (env : RunEnv) (linux : LinuxSpec)
    (process : ProcessSpec) :
    List RunEvent × Except ErrChain (Int × Option ContainerRecord) :=
  runBind (hooksStep b env) fun _ => run_from_notify b env linux process

/-- Tail of run_container from the process-section check on
(builder_impl.rs line 83). -/
def run_from_process (b : Builder) (env : RunEnv) (linux : LinuxSpec) :
    List RunEvent × Except ErrChain (Int × Option ContainerRecord) :=
  match b.spec.process with
  | none => ([], .error ["No process in spec"])
  | some process => run_from_hooks b env linux process

/-- ContainerBuilderImpl::run_container (builder_impl.rs lines 71-162):
check the linux section, construct the cgroup manager, check the
process section, then run the hook, notify, oom, dumpable, main
process, pid-file and save steps in order, stopping at the first
failure.  Returns the trace of observable actions together with either
the init pid and the updated container record, or the error chain. -/
def run_container (b : Builder) (env : RunEnv) :
    List RunEvent × Except ErrChain (Int × Option ContainerRecord) :=
  match b.spec.linux with
  | none => ([], .error ["no linux in spec"])
  | some linux =>
    runBind ([RunEvent.createCgroupManager], errCtx env.cgroupManager)
      fun _ => run_from_process b env linux

/-- Cleanup steps of cleanup_container, in program order. -/
inductive CleanupStep
  | cgroupRemove
  | rdtDelete
  | stateDirRemove
deriving DecidableEq, Repr

/-- Results of the collaborators cleanup_container calls into.  The
per-step error strings pushed by the source are the context messages it
attaches (anyhow displays the outermost context only), so the
environment just records whether each step succeeds. -/
structure CleanupEnv where
  cgroupManager : Except String Unit
  removeOk : Bool
  rdtOk : Bool
  removeDirOk : Bool
deriving Repr

/-- ContainerBuilderImpl::cleanup_container.  Returns the list of
cleanup steps attempted, in order, together with the aggregated result.
Follows builder_impl.rs lines 164-209: the three steps are best-effort,
their error strings are collected and joined with a semicolon. -/
def cleanup_container (b : Builder) (env : CleanupEnv) :
    List CleanupStep × Except String Unit :=
  match b.spec.linux with
  | none => ([], .error "no linux in spec")
  | some _linux =>
    match env.cgroupManager with
    | .error e => ([], .error e)
    | .ok () =>
      let steps := [CleanupStep.cgroupRemove]
      let errors : List String :=
        if env.removeOk then [] else ["failed to remove cgroup"]
      let stepped : List CleanupStep × List String :=
        match b.container with
        | none => (steps, errors)
        | some c =>
          let afterRdt : List CleanupStep × List String :=
            if c.cleanUpIntelRdt = some true then
              ( steps ++ [CleanupStep.rdtDelete]
              , errors ++
                  if env.rdtOk then []
                  else ["failed to delete resctrl subdirectory: \"" ++ c.id ++ "\""] )
            else (steps, errors)
          if c.rootExists then
            ( afterRdt.1 ++ [CleanupStep.stateDirRemove]
            , afterRdt.2 ++
                if env.removeDirOk then []
                else ["could not delete \"" ++ c.root ++ "\""] )
          else afterRdt
      if stepped.2 = [] then (stepped.1, .ok ())
      else
        ( stepped.1
        , .error ("failed to cleanup container: " ++
            String.intercalate ";" stepped.2) )

/-- ContainerBuilderImpl::create.  Wraps run_container; on failure of an
init container it invokes cleanup_container.  The Bool in the result
records whether cleanup_container was invoked.  Error chains: the outer
error is the run_container chain under the context
"failed to create container"; a cleanup failure is attached as a further
context (anyhow formats the attached error by its display message). -/
def create (b : Builder) (env : RunEnv) (cenv : CleanupEnv) :
    Bool × Except ErrChain Int :=
  match (run_container b env).2 with
  | .ok (pid, _c') => (false, .ok pid)
  | .error chain =>
    let outer : ErrChain := "failed to create container" :: chain
    if b.containerType = ContainerType.InitContainer then
      match (cleanup_container b cenv).2 with
      | .error inner => (true, .error (inner :: outer))
      | .ok () => (true, .error outer)
    else (false, .error outer)

/-- Errno values relevant to the mount engine.  The syscall adapter's
mount errors carry the originating errno. -/
inductive Errno
  | EINVAL
  | EPERM
  | ENOENT
  | EBUSY
  | EACCES
deriving DecidableEq, Repr

/-- Display of an errno, used inside error messages. -/
def Errno.str : Errno → String
  | .EINVAL => "EINVAL"
  | .EPERM => "EPERM"
  | .ENOENT => "ENOENT"
  | .EBUSY => "EBUSY"
  | .EACCES => "EACCES"

/-- MountAttr record passed to mount_setattr (linux::MountAttr). -/
structure MountAttr where
  attrSet : Nat
  attrClr : Nat
  propagation : Nat
  usernsFd : Nat
deriving DecidableEq, Repr

/-- MountOptionConfig from rootfs/utils.rs: parsed flags word, residual
data string, optional recursive mount attributes. -/
structure MountOptionConfig where
  flags : Nat
  data : String
  recAttr : Option MountAttr
deriving DecidableEq, Repr

/-- An OCI mount request (oci_spec::runtime::Mount), restricted to the
fields the engine reads. -/
structure SpecMount where
  destination : FsPath
  typ : Option String
  source : Option FsPath
  options : List String
deriving DecidableEq, Repr

/-- MountOptions from rootfs/mount.rs: ambient per-setup context. -/
structure MountOptions where
  root : FsPath
  label : Option String
  cgroupNs : Bool
deriving DecidableEq, Repr

/-- One recorded invocation of the syscall adapter's mount, with the
fields of the test double's MountArgs record. -/
structure MountArgs where
  source : Option FsPath
  target : FsPath
  fstype : Option String
  flags : Nat
  data : Option String
deriving DecidableEq, Repr

/-- Filesystem constructions performed by the engine while preparing a
mount target. -/
inductive FsEvent
  | createDirAll (p : FsPath)
  | createFile (p : FsPath)
deriving DecidableEq, Repr

/-- Observable state threaded through the engine: the number of mount
syscalls issued so far, the adapter's mount log, the adapter's
mount_setattr log (by target path) and the filesystem-construction
log. -/
structure SysState where
  calls : Nat
  mountLog : List MountArgs
  setattrLog : List FsPath
  fsLog : List FsEvent
deriving DecidableEq, Repr

/-- The empty observable state. -/
def SysState.empty : SysState := ⟨0, [], [], []⟩

/-- Host cgroup setup as probed by libcgroups::common::get_cgroup_setup. -/
inductive CgroupSetup
  | Legacy
  | Hybrid
  | Unified
deriving DecidableEq, Repr

/-- One line of /proc/self/cgroup as parsed by procfs: hierarchy id,
controller names, and the path of the process inside that hierarchy. -/
structure ProcCgroup where
  hierarchy : Nat
  controllers : List String
  pathname : FsPath
deriving DecidableEq, Repr

/-- Environment of the mount engine: the external crate functions and
host conditions it depends on.  parse_mount and secure_join live in
crate modules outside mount.rs and are therefore supplied as opaque
collaborator functions; the remaining fields model the host filesystem,
the libcgroups probes and the outcome of each syscall-adapter call (the
n-th mount syscall fails with the given errno when mountResult n is
some errno). -/
structure MountEnv where
  parseMount : SpecMount → MountOptionConfig
  secureJoin : FsPath → FsPath → Except String FsPath
  joinSafely : FsPath → FsPath → Except String FsPath
  canonicalize : FsPath → Except String FsPath
  isFile : FsPath → Bool
  createDirAllOk : FsPath → Bool
  createFileOk : FsPath → Bool
  openDirOk : FsPath → Bool
  mountResult : Nat → Option Errno
  setattrOk : Nat → Bool
  getCgroupSetup : Except String CgroupSetup
  listSubsystemMountPoints : Except String (List FsPath)
  processCgroups : Except String (List ProcCgroup)
  getUnifiedMountPoint : Except String FsPath
  setupComountSymlinksOk : FsPath → String → Bool

/-- One invocation of the syscall adapter's mount: the invocation is
always recorded in the log (the test double records every call), and
the environment decides whether it fails. -/
def sysMount (env : MountEnv) (st : SysState) (args : MountArgs) :
    SysState × Option Errno :=
  ( { st with calls := st.calls + 1, mountLog := st.mountLog ++ [args] }
  , env.mountResult st.calls )

/-- Data-string adjustment of mount_into_container lines 374-381: when
a label is present and the type is neither proc nor sysfs, append
context="label" to the parsed data (or make it the sole entry). -/
def labelData (cfg : MountOptionConfig) (typ : Option String)
    (label : Option String) : String :=
  match label with
  | none => cfg.data
  | some l =>
    if typ ≠ some "proc" ∧ typ ≠ some "sysfs" then
      if cfg.data = "" then "context=\"" ++ l ++ "\""
      else cfg.data ++ ",context=\"" ++ l ++ "\""
    else cfg.data

/-- Target-preparation step of mount_into_container lines 391-416: for a
bind mount, canonicalize the source; if it is a regular file create the
destination's parent directory and the destination as an empty writable
file, otherwise create the destination directory; for any other type
create the destination directory and keep the literal source.  Returns
the source path to hand to the mount syscall. -/
def prepare_source (env : MountEnv) (typ : Option String)
    (source dest : FsPath) (st : SysState) :
    SysState × Except String FsPath :=
  if typ = some "bind" then
    match env.canonicalize source with
    | .error e => (st, .error ("failed to canonicalize: " ++ e))
    | .ok src =>
      let dir := if env.isFile src then parentPath dest else dest
      let st := { st with fsLog := st.fsLog ++ [FsEvent.createDirAll dir] }
      if env.createDirAllOk dir then
        if env.isFile src then
          let st := { st with fsLog := st.fsLog ++ [FsEvent.createFile dest] }
          if env.createFileOk dest then (st, .ok src)
          else
            (st, .error ("failed to create file for bind mount: " ++ pathStr src))
        else (st, .ok src)
      else
        (st, .error ("failed to create dir for bind mount: " ++ pathStr dir))
  else
    let st := { st with fsLog := st.fsLog ++ [FsEvent.createDirAll dest] }
    if env.createDirAllOk dest then (st, .ok source)
    else (st, .error ("Failed to create device: " ++ pathStr dest))

/-- Mount-attempt step of mount_into_container lines 418-437: issue the
mount with the label-adjusted data; on failure with EINVAL retry once
with the pre-label data; on failure with any other errno abort. -/
def attempt_mounts (env : MountEnv) (src dest mdest : FsPath)
    (typ : Option String) (cfg : MountOptionConfig) (d : String)
    (st : SysState) : SysState × Except String Unit :=
  let q := sysMount env st ⟨some src, dest, typ, cfg.flags, some d⟩
  match q.2 with
  | none => (q.1, .ok ())
  | some errno =>
    if errno = Errno.EINVAL then
      let r := sysMount env q.1 ⟨some src, dest, typ, cfg.flags, some cfg.data⟩
      match r.2 with
      | none => (r.1, .ok ())
      | some _ =>
        (r.1, .error ("failed to mount " ++ pathStr src ++ " to " ++ pathStr dest))
    else (q.1, .error ("mount of " ++ pathStr mdest ++ " failed. " ++ errno.str))

/-- Remount step of mount_into_container lines 439-458: for a bind mount
whose flags word has a set bit outside REMOUNT_EXEMPT_MASK, issue
mount(dest, dest, null, flags | MS_REMOUNT, null). -/
def maybe_remount (env : MountEnv) (dest : FsPath) (typ : Option String)
    (cfg : MountOptionConfig) (st : SysState) :
    SysState × Except String Unit :=
  if typ == some "bind" && remountFlagsPresent cfg.flags then
    let r := sysMount env st
      ⟨some dest, dest, none, cfg.flags ||| MS_REMOUNT, none⟩
    match r.2 with
    | none => (r.1, .ok ())
    | some _ => (r.1, .error ("Failed to remount: " ++ pathStr dest))
  else (st, .ok ())

/-- Recursive-attribute step of mount_into_container lines 460-470: when
rec_attr is present, open the destination directory and apply the
attributes through mount_setattr with AT_RECURSIVE. -/
def apply_rec_attr (env : MountEnv) (cfg : MountOptionConfig)
    (dest : FsPath) (st : SysState) : SysState × Except String Unit :=
  match cfg.recAttr with
  | none => (st, .ok ())
  | some _attr =>
    if env.openDirOk dest then
      let idx := st.setattrLog.length
      let st := { st with setattrLog := st.setattrLog ++ [dest] }
      if env.setattrOk idx then (st, .ok ())
      else (st, .error "mount_setattr failed")
    else (st, .error ("failed to open directory: " ++ pathStr dest))

/-- Mount::mount_into_container (rootfs/mount.rs lines 364-473): adjust
the data string for the SELinux label, secure-join the destination onto
the rootfs, prepare the mount target on the filesystem, attempt the
mount with a single EINVAL retry, apply the bind remount when needed,
and finally apply recursive mount attributes. -/
def mount_into_container (env : MountEnv) (m : SpecMount) (rootfs : FsPath)
    (cfg : MountOptionConfig) (label : Option String) (st : SysState) :
    SysState × Except String Unit :=
  let typ := m.typ
  let d := labelData cfg typ label
  match env.secureJoin rootfs m.destination with
  | .error _ =>
    (st, .error ("failed to join " ++ pathStr rootfs ++ " with " ++
      pathStr m.destination))
  | .ok dest =>
  match m.source with
  | none => (st, .error "no source in mount spec")
  | some source =>
    match prepare_source env typ source dest st with
    | (st1, .error e) => (st1, .error e)
    | (st1, .ok src) =>
      match attempt_mounts env src dest m.destination typ cfg d st1 with
      | (st2, .error e) => (st2, .error e)
      | (st2, .ok ()) =>
        match maybe_remount env dest typ cfg st2 with
        | (st3, .error e) => (st3, .error e)
        | (st3, .ok ()) => apply_rec_attr env cfg dest st3

/-- Mount::mount_cgroup_v2 (rootfs/mount.rs lines 278-337): attempt a
cgroup2-type mount at the destination with an empty option list; on any
failure fall back to a bind mount of the host unified mount point joined
with the current process's v2 cgroup path, after adding MS_BIND to a
clone of the mount option config. -/
def mount_cgroup_v2 (env : MountEnv) (cgroupMount : SpecMount)
    (opts : MountOptions) (cfg : MountOptionConfig) (st : SysState) :
    SysState × Except String Unit :=
  let cg2 : SpecMount :=
    { destination := cgroupMount.destination
      typ := some "cgroup2"
      source := some ["cgroup"]
      options := [] }
  match mount_into_container env cg2 opts.root cfg opts.label st with
  | (st1, .ok ()) => (st1, .ok ())
  | (st1, .error _) =>
    match env.getUnifiedMountPoint with
    | .error _ => (st1, .error "failed to get unified mount point")
    | .ok hostMount =>
      match (env.processCgroups.map
          (fun l => l.find? (fun c => c.hierarchy == 0))) with
      | .error _ => (st1, .error "failed to get process cgroups")
      | .ok none => (st1, .error "failed to find unified process cgroup")
      | .ok (some c) =>
        match env.joinSafely hostMount c.pathname with
        | .error e => (st1, .error e)
        | .ok src =>
          let bindMount : SpecMount :=
            { destination := cg2.destination
              typ := some "bind"
              source := some src
              options := [] }
          let cfg2 : MountOptionConfig :=
            { cfg with flags := cfg.flags ||| MS_BIND }
          match mount_into_container env bindMount opts.root cfg2
              opts.label st1 with
          | (st2, .error _) =>
            (st2, .error "failed to bind mount cgroup hierarchy")
          | (st2, .ok ()) => (st2, .ok ())

/-- Mount::setup_namespaced_subsystem (rootfs/mount.rs lines 178-221):
mount a cgroup-type filesystem for one subsystem under the cgroup mount
destination, with flags NOEXEC|NOSUID|NODEV and the subsystem name (or
name=subsystem for a named hierarchy) as data. -/
def setup_namespaced_subsystem (env : MountEnv) (cgroupMount : SpecMount)
    (opts : MountOptions) (subsystemName : String) (named : Bool)
    (st : SysState) : SysState × Except String Unit :=
  let subsystemMount : SpecMount :=
    { destination := cgroupMount.destination ++ [subsystemName]
      typ := some "cgroup"
      source := some ["cgroup"]
      options := ["noexec", "nosuid", "nodev"] }
  let data := if named then "name=" ++ subsystemName else subsystemName
  let cfg : MountOptionConfig :=
    { flags := MS_NOEXEC ||| MS_NOSUID ||| MS_NODEV
      data := data
      recAttr := none }
  mount_into_container env subsystemMount opts.root cfg opts.label st

/-- DEFAULT_CGROUP_ROOT from libcgroups::common. -/
def DEFAULT_CGROUP_ROOT : FsPath := ["sys", "fs", "cgroup"]

mutual

/-- Mount::setup_mount (rootfs/mount.rs lines 50-98): parse the mount
options; for a cgroup-type mount probe the host cgroup setup and
dispatch to the v1 or v2 strategy; otherwise clear MS_RDONLY when the
destination is exactly /dev, and call mount_into_container.  The fuel
argument bounds the recursion through the v1 strategy (the source
recursion has depth at most two). -/
def setup_mount : Nat → MountEnv → SpecMount → MountOptions → SysState →
    SysState × Except String Unit
  | 0, _, _, _, st => (st, .error "recursion depth exceeded")
  | Nat.succ fuel, env, m, opts, st =>
    let cfg := env.parseMount m
    if m.typ = some "cgroup" then
      match env.getCgroupSetup with
      | .error _ => (st, .error "failed to determine cgroup setup")
      | .ok CgroupSetup.Legacy => mount_cgroup_v1 fuel env m opts st
      | .ok CgroupSetup.Hybrid => mount_cgroup_v1 fuel env m opts st
      | .ok CgroupSetup.Unified => mount_cgroup_v2 env m opts cfg st
    else
      if m.destination = ["dev"] then
        mount_into_container env m opts.root
          { cfg with flags := clearFlags cfg.flags MS_RDONLY }
          opts.label st
      else
        mount_into_container env m opts.root cfg opts.label st

/-- Mount::mount_cgroup_v1 (rootfs/mount.rs lines 101-173): mount a
tmpfs at the cgroup destination through the general dispatch, enumerate
the host subsystem mount points under the canonical cgroup root, read
the process's cgroup memberships, and mount each subsystem in namespaced
or emulated mode followed by its comount symlinks. -/
def mount_cgroup_v1 : Nat → MountEnv → SpecMount → MountOptions →
    SysState → SysState × Except String Unit
  | 0, _, _, _, st => (st, .error "recursion depth exceeded")
  | Nat.succ fuel, env, cgroupMount, opts, st =>
    let tmpfs : SpecMount :=
      { destination := cgroupMount.destination
        typ := some "tmpfs"
        source := some ["tmpfs"]
        options := ["noexec", "nosuid", "nodev", "mode=755"] }
    match setup_mount fuel env tmpfs opts st with
    | (st1, .error e) => (st1, .error e)
    | (st1, .ok ()) =>
      match env.listSubsystemMountPoints with
      | .error _ => (st1, .error "failed to get subsystem mount points")
      | .ok pts =>
        let hostMounts := pts.filter
          (fun p => DEFAULT_CGROUP_ROOT.isPrefixOf p)
        match env.processCgroups with
        | .error _ => (st1, .error "failed to get process cgroups")
        | .ok procCgroups =>
          let processCgroups : List (String × FsPath) :=
            procCgroups.map
              (fun c => (String.intercalate "," c.controllers, c.pathname))
          match env.joinSafely opts.root cgroupMount.destination with
          | .error _ =>
            (st1, .error
              "could not join rootfs path with cgroup mount destination")
          | .ok cgroupRoot =>
            mount_cgroup_v1_subsystems fuel env cgroupMount opts cgroupRoot
              processCgroups hostMounts st1

/-- Per-subsystem loop of Mount::mount_cgroup_v1 (rootfs/mount.rs lines
146-170): for each host subsystem mount point, mount it in namespaced or
emulated mode and create the comount symlinks; a mount point without a
final path component is skipped with a warning. -/
def mount_cgroup_v1_subsystems : Nat → MountEnv → SpecMount →
    MountOptions → FsPath → List (String × FsPath) → List FsPath →
    SysState → SysState × Except String Unit
  | 0, _, _, _, _, _, _, st => (st, .error "recursion depth exceeded")
  | Nat.succ _, _, _, _, _, _, [], st => (st, .ok ())
  | Nat.succ fuel, env, cgroupMount, opts, cgroupRoot, processCgroups,
      hostMount :: rest, st =>
    match hostMount.getLast? with
    | none =>
      mount_cgroup_v1_subsystems fuel env cgroupMount opts cgroupRoot
        processCgroups rest st
    | some subsystemName =>
      let mounted : SysState × Except String Unit :=
        if opts.cgroupNs then
          setup_namespaced_subsystem env cgroupMount opts subsystemName
            (subsystemName == "systemd") st
        else
          setup_emulated_subsystem fuel env cgroupMount opts subsystemName
            (subsystemName == "systemd") hostMount processCgroups st
      match mounted with
      | (st1, .error e) => (st1, .error e)
      | (st1, .ok ()) =>
        if env.setupComountSymlinksOk cgroupRoot subsystemName then
          mount_cgroup_v1_subsystems fuel env cgroupMount opts cgroupRoot
            processCgroups rest st1
        else (st1, .error "failed to setup comount symlinks")

/-- Mount::setup_emulated_subsystem (rootfs/mount.rs lines 224-276):
look up the process's path inside the subsystem hierarchy; when present,
bind-mount the host subsystem path joined with it to the subsystem
destination with options rw,rbind through the general dispatch; when
absent, log and skip. -/
def setup_emulated_subsystem : Nat → MountEnv → SpecMount → MountOptions →
    String → Bool → FsPath → List (String × FsPath) → SysState →
    SysState × Except String Unit
  | 0, _, _, _, _, _, _, _, st => (st, .error "recursion depth exceeded")
  | Nat.succ fuel, env, cgroupMount, opts, subsystemName, named,
      hostMount, processCgroups, st =>
    let namedHierarchy :=
      if named then "name=" ++ subsystemName else subsystemName
    match (processCgroups.find? (fun p => p.1 == namedHierarchy)).map
        Prod.snd with
    | some procPath =>
      match env.joinSafely hostMount procPath with
      | .error _ =>
        (st, .error ("failed to join mount source for " ++ subsystemName ++
          " subsystem"))
      | .ok src =>
        match env.joinSafely cgroupMount.destination [subsystemName] with
        | .error _ =>
          (st, .error ("failed to join mount destination for " ++
            subsystemName ++ " subsystem"))
        | .ok dst =>
          let emulated : SpecMount :=
            { destination := dst
              typ := some "bind"
              source := some src
              options := ["rw", "rbind"] }
          setup_mount fuel env emulated opts st
    | none => (st, .ok ())

end

/-- Index of a run_container action in the fixed program order. -/
def runEventIdx : RunEvent → Nat
  | .createCgroupManager => 0
  | .runCreateRuntimeHooks => 1
  | .createNotifySocket => 2
  | .writeOomScoreAdj _ => 3
  | .setDumpableFalse => 4
  | .callMainProcess => 5
  | .writePidFile _ => 6
  | .saveContainer => 7

/-- A sample environment in which every collaborator succeeds. -/
def envAllOk : RunEnv :=
  { cgroupManager := .ok ()
    hooksResult := .ok ()
    notifyResult := .ok ()
    oomWriteResult := .ok ()
    mainProcess := .ok (42, false)
    pidFileWrite := .ok ()
    saveResult := .ok ()
    euid := 1000 }

/-- A sample tenant-container builder whose spec declares namespaces and
an oom_score_adj value. -/
def tenantB : Builder :=
  { containerType := ContainerType.TenantContainer
    useSystemd := false
    containerId := "c1"
    spec :=
      { linux := some { cgroupsPath := none, namespaces := some ["mnt"] }
        process := some { oomScoreAdj := some 7 }
        hooks := none }
    pidFile := none
    container := none
    rootless := false }

/-- The cleanup steps cleanup_container attempts, in their fixed order:
cgroup remove always; resctrl deletion when the record requests it;
state-directory removal when the state directory exists. -/
def cleanupExpectedSteps (b : Builder) : List CleanupStep :=
  [CleanupStep.cgroupRemove] ++
    match b.container with
    | none => []
    | some c =>
      (if c.cleanUpIntelRdt = some true then [CleanupStep.rdtDelete]
        else []) ++
      (if c.rootExists then [CleanupStep.stateDirRemove] else [])

/-- The per-step error messages of the failing cleanup steps, in step
order. -/
def cleanupExpectedMsgs (b : Builder) (env : CleanupEnv) : List String :=
  (if env.removeOk then [] else ["failed to remove cgroup"]) ++
    match b.container with
    | none => []
    | some c =>
      (if c.cleanUpIntelRdt = some true ∧ env.rdtOk = false then
        ["failed to delete resctrl subdirectory: \"" ++ c.id ++ "\""]
        else []) ++
      (if c.rootExists ∧ env.removeDirOk = false then
        ["could not delete \"" ++ c.root ++ "\""] else [])

/-- A sample init-container builder holding a container record that
requests resctrl cleanup and whose state directory exists. -/
def initWithRecordB : Builder :=
  { containerType := ContainerType.InitContainer
    useSystemd := false
    containerId := "c2"
    spec :=
      { linux := some { cgroupsPath := none, namespaces := some ["mnt"] }
        process := some { oomScoreAdj := none }
        hooks := none }
    pidFile := none
    container := some
      { id := "c2"
        status := ContainerStatus.Creating
        pid := 0
        creator := 0
        cleanUpIntelRdt := some true
        root := "/run/youki/c2"
        rootExists := true }
    rootless := false }

/-- A cleanup environment in which the cgroup remove and the
state-directory removal fail while the resctrl deletion succeeds. -/
def cenvTwoFailures : CleanupEnv :=
  { cgroupManager := .ok ()
    removeOk := false
    rdtOk := true
    removeDirOk := false }

/-- An init-container builder whose spec lacks the linux section. -/
def initNoLinuxB : Builder :=
  { containerType := ContainerType.InitContainer
    useSystemd := false
    containerId := "c3"
    spec := { linux := none, process := none, hooks := none }
    pidFile := none
    container := none
    rootless := false }

/-- A cleanup environment whose cgroup manager construction fails. -/
def cenvManagerFails : CleanupEnv :=
  { cgroupManager := .error "cgroup manager construction failed"
    removeOk := true
    rdtOk := true
    removeDirOk := true }

/-- The remount syscall record issued by the bind remount:
mount(dest, dest, null, flags | MS_REMOUNT, null). -/
def remountArgs (dest : FsPath) (flags : Nat) : MountArgs :=
  ⟨some dest, dest, none, flags ||| MS_REMOUNT, none⟩

/-- A sample mount environment: every host operation succeeds, every
syscall succeeds, canonicalization is the identity and no path is a
regular file. -/
def mountEnvOk : MountEnv :=
  { parseMount := fun _ => ⟨0, "", none⟩
    secureJoin := fun r d => .ok (r ++ d)
    joinSafely := fun r d => .ok (r ++ d)
    canonicalize := fun p => .ok p
    isFile := fun _ => false
    createDirAllOk := fun _ => true
    createFileOk := fun _ => true
    openDirOk := fun _ => true
    mountResult := fun _ => none
    setattrOk := fun _ => true
    getCgroupSetup := .ok CgroupSetup.Unified
    listSubsystemMountPoints := .ok []
    processCgroups := .ok []
    getUnifiedMountPoint := .ok ["sys", "fs", "cgroup"]
    setupComountSymlinksOk := fun _ _ => true }

/-- A read-only bind mount request of /tmp/null at /dev/null. -/
def bindRoMount : SpecMount :=
  { destination := ["dev", "null"]
    typ := some "bind"
    source := some ["tmp", "null"]
    options := ["ro"] }

/-- The parsed option config of the ro option: MS_RDONLY, empty data. -/
def roCfg : MountOptionConfig := ⟨MS_RDONLY, "", none⟩

/-- A mount environment whose first mount syscall fails with EINVAL and
whose later syscalls succeed. -/
def einvalEnv : MountEnv :=
  { mountEnvOk with
    mountResult := fun n => if n = 0 then some Errno.EINVAL else none }

/-- A devpts mount request at /dev/pts. -/
def devptsMount : SpecMount :=
  { destination := ["dev", "pts"]
    typ := some "devpts"
    source := some ["devpts"]
    options := ["nosuid", "noexec", "newinstance", "ptmxmode=0666"] }

/-- The parsed option config of the devpts options. -/
def ptsCfg : MountOptionConfig :=
  ⟨MS_NOSUID ||| MS_NOEXEC, "newinstance,ptmxmode=0666", none⟩

/-- The state after target preparation in the C3 witness run. -/
def st1W : SysState :=
  ⟨0, [], [], [FsEvent.createDirAll ["rootfs", "dev", "pts"]]⟩

/-- A mount environment in which exactly /tmp/null is a regular file. -/
def mountEnvFile : MountEnv :=
  { mountEnvOk with isFile := fun p => p == ["tmp", "null"] }

/-- A mount environment whose first mount syscall fails with EPERM and
whose process cgroup list has no hierarchy-0 entry. -/
def epermEnv : MountEnv :=
  { mountEnvOk with
    mountResult := fun n => if n = 0 then some Errno.EPERM else none
    getUnifiedMountPoint := .ok ["hostcg"]
    processCgroups := .ok [] }

/-- A cgroup mount request at /sys/fs/cgroup. -/
def cgroupSpecMount : SpecMount :=
  { destination := ["sys", "fs", "cgroup"]
    typ := some "cgroup"
    source := some ["cgroup"]
    options := [] }

/-- The parsed config of the cgroup mount options in scenario S5. -/
def v2cfg : MountOptionConfig :=
  ⟨MS_NOEXEC ||| MS_NOSUID ||| MS_NODEV, "", none⟩

/-- Ambient options for the cgroup v2 witness. -/
def v2opts : MountOptions := ⟨["rootfs"], none, true⟩

/-- Observable state after the failed primary cgroup2 attempt in the C5
witness run. -/
def st1W5 : SysState :=
  ⟨1, [⟨some ["cgroup"], ["rootfs", "sys", "fs", "cgroup"],
      some "cgroup2", MS_NOEXEC ||| MS_NOSUID ||| MS_NODEV, some ""⟩],
    [], [FsEvent.createDirAll ["rootfs", "sys", "fs", "cgroup"]]⟩

/-- A tmpfs mount request at /dev with read-only options. -/
def devMount : SpecMount :=
  { destination := ["dev"]
    typ := some "tmpfs"
    source := some ["tmpfs"]
    options := ["ro", "nosuid"] }

/-- A mount environment whose option parser yields MS_RDONLY and
MS_NOSUID. -/
def c9env : MountEnv :=
  { mountEnvOk with
    parseMount := fun _ => ⟨MS_RDONLY ||| MS_NOSUID, "", none⟩ }

/-- Ambient options for the /dev witness. -/
def c9opts : MountOptions := ⟨["rootfs"], none, false⟩

/-! ## Theorems -/

/-- The trace of a sequenced pair of steps is the first trace followed,
on success, by the continuation's trace. -/
theorem runBind_trace {A B : Type} (x : List RunEvent × Except ErrChain A)
    (f : A → List RunEvent × Except ErrChain B) :
    (runBind x f).1 = x.1 ++ (match x.2 with
      | .error _ => []
      | .ok a => (f a).1) := by
  rcases x with ⟨t, r⟩
  cases r <;> simp [runBind]

/-- A sequenced pair of steps succeeds exactly when both do; the trace
is then the concatenation of both traces. -/
theorem runBind_ok {A B : Type} (x : List RunEvent × Except ErrChain A)
    (f : A → List RunEvent × Except ErrChain B) (b : B)
    (h : (runBind x f).2 = .ok b) :
    ∃ a, x.2 = .ok a ∧ (f a).2 = .ok b ∧
      (runBind x f).1 = x.1 ++ (f a).1 := by
  rcases x with ⟨t, r⟩
  cases r with
  | error e => simp [runBind] at h
  | ok a => exact ⟨a, rfl, by simpa [runBind] using h, by simp [runBind]⟩

/-- Every action of a run_container trace element lies at its fixed
program position; lower bounds of the tail stages. -/
theorem run_from_pid_bound (b : Builder) (env : RunEnv) (pr : Int × Bool) :
    (∀ x ∈ (run_from_pid b env pr).1, 6 ≤ runEventIdx x) ∧
      List.Pairwise (fun a c => runEventIdx a < runEventIdx c)
        (run_from_pid b env pr).1 := by
  have ht := runBind_trace (pidFileStep b env pr.1)
    (fun _ => saveStep b env pr.1 pr.2)
  unfold run_from_pid
  rw [ht]
  rcases hpf : b.pidFile with _ | pf <;>
    rcases hc : b.container with _ | c <;>
    rcases hpw : env.pidFileWrite with e | u <;>
    rcases hsv : env.saveResult with e2 | u2 <;>
    simp_all [pidFileStep, saveStep, errCtx, runEventIdx]

/-- Helper: a trace headed by an action of index below a bound, over a
sorted tail whose indices meet the bound, is sorted. -/
theorem sorted_cons_bound (e : RunEvent) (l : List RunEvent) (k : Nat)
    (he : runEventIdx e < k) (hb : ∀ x ∈ l, k ≤ runEventIdx x)
    (hs : List.Pairwise (fun a c => runEventIdx a < runEventIdx c) l) :
    List.Pairwise (fun a c => runEventIdx a < runEventIdx c) (e :: l) := by
  refine List.pairwise_cons.mpr ⟨fun x hx => ?_, hs⟩
  exact lt_of_lt_of_le he (hb x hx)

/-- Lower bound and sortedness of the trace from the main-process call. -/
theorem run_from_main_bound (b : Builder) (env : RunEnv) :
    (∀ x ∈ (run_from_main b env).1, 5 ≤ runEventIdx x) ∧
      List.Pairwise (fun a c => runEventIdx a < runEventIdx c)
        (run_from_main b env).1 := by
  have ht := runBind_trace
    ((([RunEvent.callMainProcess] : List RunEvent), errCtx env.mainProcess))
    (fun pr => run_from_pid b env pr)
  unfold run_from_main
  rw [ht]
  rcases hmp : env.mainProcess with e | pr <;> simp only [errCtx]
  · simp [runEventIdx]
  · have hb := run_from_pid_bound b env pr
    constructor
    · intro x hx
      simp only [List.singleton_append, List.mem_cons] at hx
      rcases hx with h | h
      · subst h; simp [runEventIdx]
      · exact le_trans (by norm_num) (hb.1 x h)
    · simp only [List.singleton_append]
      exact sorted_cons_bound _ _ 6 (by simp [runEventIdx]) hb.1 hb.2

/-- Lower bound and sortedness of the trace from the dumpable step. -/
theorem run_from_dumpable_bound (b : Builder) (env : RunEnv)
    (linux : LinuxSpec) :
    (∀ x ∈ (run_from_dumpable b env linux).1, 4 ≤ runEventIdx x) ∧
      List.Pairwise (fun a c => runEventIdx a < runEventIdx c)
        (run_from_dumpable b env linux).1 := by
  have ht := runBind_trace (dumpableStep linux)
    (fun _ => run_from_main b env)
  unfold run_from_dumpable
  rw [ht]
  have hb := run_from_main_bound b env
  rcases hns : linux.namespaces with _ | nss <;>
    simp only [dumpableStep, hns, Option.isSome_none, Option.isSome_some,
      Bool.false_eq_true, if_true, if_false, List.nil_append,
      List.singleton_append]
  · exact ⟨fun x hx => le_trans (by norm_num) (hb.1 x hx), hb.2⟩
  · refine ⟨fun x hx => ?_, sorted_cons_bound _ _ 5 (by simp [runEventIdx])
      hb.1 hb.2⟩
    rcases List.mem_cons.mp hx with h | h
    · subst h; simp [runEventIdx]
    · exact le_trans (by norm_num) (hb.1 x h)

/-- Lower bound and sortedness of the trace from the oom step. -/
theorem run_from_oom_bound (b : Builder) (env : RunEnv)
    (linux : LinuxSpec) (process : ProcessSpec) :
    (∀ x ∈ (run_from_oom b env linux process).1, 3 ≤ runEventIdx x) ∧
      List.Pairwise (fun a c => runEventIdx a < runEventIdx c)
        (run_from_oom b env linux process).1 := by
  have ht := runBind_trace (oomStep process env)
    (fun _ => run_from_dumpable b env linux)
  unfold run_from_oom
  rw [ht]
  have hb := run_from_dumpable_bound b env linux
  rcases hoa : process.oomScoreAdj with _ | v <;>
    simp only [oomStep, hoa, List.nil_append, List.singleton_append]
  · exact ⟨fun x hx => le_trans (by norm_num) (hb.1 x hx), hb.2⟩
  · rcases how : env.oomWriteResult with e | u <;> simp only [errCtx]
    · simp [runEventIdx]
    · refine ⟨fun x hx => ?_, sorted_cons_bound _ _ 4 (by simp [runEventIdx])
        hb.1 hb.2⟩
      rcases List.mem_cons.mp hx with h | h
      · subst h; simp [runEventIdx]
      · exact le_trans (by norm_num) (hb.1 x h)

/-- Lower bound and sortedness of the trace from the notify bind. -/
theorem run_from_notify_bound (b : Builder) (env : RunEnv)
    (linux : LinuxSpec) (process : ProcessSpec) :
    (∀ x ∈ (run_from_notify b env linux process).1, 2 ≤ runEventIdx x) ∧
      List.Pairwise (fun a c => runEventIdx a < runEventIdx c)
        (run_from_notify b env linux process).1 := by
  have ht := runBind_trace
    ((([RunEvent.createNotifySocket] : List RunEvent),
      errCtx env.notifyResult))
    (fun _ => run_from_oom b env linux process)
  unfold run_from_notify
  rw [ht]
  have hb := run_from_oom_bound b env linux process
  rcases hno : env.notifyResult with e | u <;> simp only [errCtx]
  · simp [runEventIdx]
  · simp only [List.singleton_append]
    refine ⟨fun x hx => ?_, sorted_cons_bound _ _ 3 (by simp [runEventIdx])
      hb.1 hb.2⟩
    rcases List.mem_cons.mp hx with h | h
    · subst h; simp [runEventIdx]
    · exact le_trans (by norm_num) (hb.1 x h)

/-- Lower bound and sortedness of the trace from the hook step. -/
theorem run_from_hooks_bound (b : Builder) (env : RunEnv)
    (linux : LinuxSpec) (process : ProcessSpec) :
    (∀ x ∈ (run_from_hooks b env linux process).1, 1 ≤ runEventIdx x) ∧
      List.Pairwise (fun a c => runEventIdx a < runEventIdx c)
        (run_from_hooks b env linux process).1 := by
  have ht := runBind_trace (hooksStep b env)
    (fun _ => run_from_notify b env linux process)
  unfold run_from_hooks
  rw [ht]
  have hb := run_from_notify_bound b env linux process
  rcases hct : b.containerType <;>
    rcases hhk : b.spec.hooks with _ | hk <;>
    rcases hhr : env.hooksResult with e | u <;>
    simp only [hooksStep, hct, hhk, hhr, errCtx, reduceCtorEq, if_true,
      if_false, reduceIte, List.nil_append, List.singleton_append]
  all_goals first
  | exact ⟨fun x hx => le_trans (by norm_num) (hb.1 x hx), hb.2⟩
  | { refine ⟨fun x hx => ?_, sorted_cons_bound _ _ 2 (by simp [runEventIdx])
        hb.1 hb.2⟩
      rcases List.mem_cons.mp hx with h | h
      · subst h; simp [runEventIdx]
      · exact le_trans (by norm_num) (hb.1 x h) }
  | simp [runEventIdx]

/-- The trace of run_container is strictly ordered by program position:
every execution performs its observable actions in the fixed order
cgroup manager, hooks, notify socket, oom write, set-dumpable, main
process, pid file, save — each at most once. -/
theorem run_container_trace_sorted (b : Builder) (env : RunEnv) :
    List.Pairwise (fun a c => runEventIdx a < runEventIdx c)
      (run_container b env).1 := by
  unfold run_container
  rcases hlin : b.spec.linux with _ | linux
  · simp
  have ht := runBind_trace
    ((([RunEvent.createCgroupManager] : List RunEvent),
      errCtx env.cgroupManager))
    (fun _ => run_from_process b env linux)
  rw [ht]
  rcases hcm : env.cgroupManager with e | u <;> simp only [errCtx]
  · simp
  simp only [List.singleton_append]
  have hp : (∀ x ∈ (run_from_process b env linux).1, 1 ≤ runEventIdx x) ∧
      List.Pairwise (fun a c => runEventIdx a < runEventIdx c)
        (run_from_process b env linux).1 := by
    unfold run_from_process
    rcases hpr : b.spec.process with _ | process
    · simp
    · exact run_from_hooks_bound b env linux process
  exact sorted_cons_bound _ _ 1 (by simp [runEventIdx]) hp.1 hp.2

/-- C8: in every execution of run_container in which both actions
occur, the write of the oom_score_adj value to /proc/self/oom_score_adj
happens strictly before set_dumpable(false). -/
theorem oom_write_before_set_dumpable (b : Builder) (env : RunEnv)
    (i j : Nat) (v : Int)
    (hi : (run_container b env).1.get? i =
      some (RunEvent.writeOomScoreAdj v))
    (hj : (run_container b env).1.get? j = some RunEvent.setDumpableFalse) :
    i < j := by
  have hs := run_container_trace_sorted b env
  rcases List.get?_eq_some.mp hi with ⟨hi', hgi⟩
  rcases List.get?_eq_some.mp hj with ⟨hj', hgj⟩
  by_contra hij
  push_neg at hij
  rcases Nat.lt_or_ge j i with hlt | hge
  · have hp := List.pairwise_iff_get.mp hs ⟨j, hj'⟩ ⟨i, hi'⟩
      (by exact hlt)
    rw [hgj, hgi] at hp
    simp [runEventIdx] at hp
  · have : i = j := le_antisymm hge hij
    subst this
    rw [hgi] at hgj
    simp at hgj

/-- Witness for C8: on a concrete run whose trace contains both actions,
the oom write (position 2) precedes set_dumpable (position 3). -/
theorem oom_write_before_set_dumpable_witness :
    (run_container tenantB envAllOk).1.get? 2 =
        some (RunEvent.writeOomScoreAdj 7) ∧
      (run_container tenantB envAllOk).1.get? 3 =
        some RunEvent.setDumpableFalse ∧
      2 < 3 :=
  ⟨rfl, rfl, oom_write_before_set_dumpable tenantB envAllOk 2 3 7 rfl rfl⟩

/-- The set-dumpable action never appears after the main-process call. -/
theorem dumpable_notin_main (b : Builder) (env : RunEnv) :
    RunEvent.setDumpableFalse ∉ (run_from_main b env).1 := by
  intro h
  have := (run_from_main_bound b env).1 _ h
  simp [runEventIdx] at this

/-- When no namespaces are declared, the dumpable stage contributes no
set-dumpable action. -/
theorem dumpable_notin_from_dumpable (b : Builder) (env : RunEnv)
    (linux : LinuxSpec) (hns : linux.namespaces = none) :
    RunEvent.setDumpableFalse ∉ (run_from_dumpable b env linux).1 := by
  rw [run_from_dumpable, runBind_trace]
  simp [dumpableStep, hns]
  exact dumpable_notin_main b env

/-- When no namespaces are declared, no stage from the oom step on
produces a set-dumpable action. -/
theorem dumpable_notin_from_oom (b : Builder) (env : RunEnv)
    (linux : LinuxSpec) (process : ProcessSpec)
    (hns : linux.namespaces = none) :
    RunEvent.setDumpableFalse ∉ (run_from_oom b env linux process).1 := by
  rw [run_from_oom, runBind_trace]
  intro h
  rcases List.mem_append.mp h with h1 | h1
  · rcases hoa : process.oomScoreAdj with _ | v <;>
      simp [oomStep, hoa] at h1
  · rcases hr : (oomStep process env).2 with e | u <;> simp [hr] at h1
    exact dumpable_notin_from_dumpable b env linux hns h1

/-- When no namespaces are declared, no stage from the notify bind on
produces a set-dumpable action. -/
theorem dumpable_notin_from_notify (b : Builder) (env : RunEnv)
    (linux : LinuxSpec) (process : ProcessSpec)
    (hns : linux.namespaces = none) :
    RunEvent.setDumpableFalse ∉ (run_from_notify b env linux process).1 := by
  rw [run_from_notify, runBind_trace]
  intro h
  rcases List.mem_append.mp h with h1 | h1
  · simp at h1
  · rcases hr : (errCtx env.notifyResult :
        Except ErrChain Unit) with e | u <;> simp [hr] at h1
    exact dumpable_notin_from_oom b env linux process hns h1

/-- When no namespaces are declared, no stage from the hook step on
produces a set-dumpable action. -/
theorem dumpable_notin_from_hooks (b : Builder) (env : RunEnv)
    (linux : LinuxSpec) (process : ProcessSpec)
    (hns : linux.namespaces = none) :
    RunEvent.setDumpableFalse ∉ (run_from_hooks b env linux process).1 := by
  rw [run_from_hooks, runBind_trace]
  intro h
  rcases List.mem_append.mp h with h1 | h1
  · rcases hct : b.containerType <;>
      rcases hhk : b.spec.hooks with _ | hk <;>
      simp [hooksStep, hct, hhk] at h1
  · rcases hr : (hooksStep b env).2 with e | u <;> simp [hr] at h1
    exact dumpable_notin_from_notify b env linux process hns h1

/-- When namespaces are declared, the trace from the dumpable stage
contains the set-dumpable action. -/
theorem dumpable_mem_from_dumpable (b : Builder) (env : RunEnv)
    (linux : LinuxSpec) (hns : linux.namespaces.isSome = true) :
    RunEvent.setDumpableFalse ∈ (run_from_dumpable b env linux).1 := by
  rw [run_from_dumpable, runBind_trace]
  simp [dumpableStep, hns]

/-- When the spec declares no namespaces, no execution of run_container
performs the set-dumpable action. -/
theorem dumpable_notin_run (b : Builder) (env : RunEnv) (l : LinuxSpec)
    (hl : b.spec.linux = some l) (hns : l.namespaces = none) :
    RunEvent.setDumpableFalse ∉ (run_container b env).1 := by
  simp only [run_container, hl]
  rw [runBind_trace]
  intro h
  rcases List.mem_append.mp h with h1 | h1
  · simp at h1
  · rcases hr : (errCtx env.cgroupManager : Except ErrChain Unit)
      with e | u <;> simp only [hr] at h1
    · simp at h1
    · unfold run_from_process at h1
      rcases hpro : b.spec.process with _ | process
      · rw [hpro] at h1; simp at h1
      · rw [hpro] at h1
        exact dumpable_notin_from_hooks b env l process hns h1

/-- C7: in run_container, the process is set non-dumpable iff Linux
namespaces are declared in the spec (stated on successful executions);
and whenever no namespaces are declared, set_dumpable(false) is skipped
in every execution. -/
theorem run_container_set_dumpable_iff (b : Builder) (env : RunEnv) :
    (∀ r, (run_container b env).2 = .ok r →
      (RunEvent.setDumpableFalse ∈ (run_container b env).1 ↔
        ∃ l, b.spec.linux = some l ∧ l.namespaces.isSome = true)) ∧
    (∀ l, b.spec.linux = some l → l.namespaces = none →
      RunEvent.setDumpableFalse ∉ (run_container b env).1) := by
  constructor
  · intro r hok
    constructor
    · intro hmem
      rcases hlin : b.spec.linux with _ | l
      · simp [run_container, hlin] at hok
      · refine ⟨l, rfl, ?_⟩
        by_contra hns
        rw [Option.not_isSome_iff_eq_none] at hns
        exact dumpable_notin_run b env l hlin hns hmem
    · rintro ⟨l, hl, hns⟩
      simp only [run_container, hl] at hok ⊢
      obtain ⟨a, hcm, hfp, htr⟩ := runBind_ok _ _ r hok
      rw [htr]
      refine List.mem_append.mpr (Or.inr ?_)
      rcases hpro : b.spec.process with _ | process
      · simp only [run_from_process, hpro] at hfp
        simp at hfp
      · simp only [run_from_process, hpro] at hfp ⊢
        rw [run_from_hooks] at hfp ⊢
        obtain ⟨a2, hh, hfn, htr2⟩ := runBind_ok _ _ r hfp
        rw [htr2]
        refine List.mem_append.mpr (Or.inr ?_)
        rw [run_from_notify] at hfn ⊢
        obtain ⟨a3, hno, hfo, htr3⟩ := runBind_ok _ _ r hfn
        rw [htr3]
        refine List.mem_append.mpr (Or.inr ?_)
        rw [run_from_oom] at hfo ⊢
        obtain ⟨a4, hoo, hfd, htr4⟩ := runBind_ok _ _ r hfo
        rw [htr4]
        refine List.mem_append.mpr (Or.inr ?_)
        exact dumpable_mem_from_dumpable b env l hns
  · exact fun l hl hns => dumpable_notin_run b env l hl hns

/-- Witness for C7: a concrete successful run on a spec that declares
namespaces, to which the theorem applies. -/
theorem run_container_set_dumpable_iff_witness :
    (run_container tenantB envAllOk).2 = .ok (42, none) ∧
      (RunEvent.setDumpableFalse ∈ (run_container tenantB envAllOk).1 ↔
        ∃ l, tenantB.spec.linux = some l ∧ l.namespaces.isSome = true) :=
  ⟨rfl, (run_container_set_dumpable_iff tenantB envAllOk).1 (42, none) rfl⟩

/-- C2: cleanup_container is best-effort and order-preserving: once the
cgroup manager is constructed, the attempted steps are exactly the fixed
ordered list independent of which steps fail; with no failing step it
succeeds, and otherwise it returns one error whose message is
"failed to cleanup container: " followed by the failing steps' messages
joined with ";" in step order. -/
theorem cleanup_container_best_effort (b : Builder) (env : CleanupEnv)
    (l : LinuxSpec) (hl : b.spec.linux = some l)
    (hm : env.cgroupManager = .ok ()) :
    (cleanup_container b env).1 = cleanupExpectedSteps b ∧
      (cleanupExpectedMsgs b env = [] →
        (cleanup_container b env).2 = .ok ()) ∧
      (cleanupExpectedMsgs b env ≠ [] →
        (cleanup_container b env).2 =
          .error ("failed to cleanup container: " ++
            String.intercalate ";" (cleanupExpectedMsgs b env))) := by
  rcases hc : b.container with _ | c <;>
    simp only [cleanup_container, cleanupExpectedSteps, cleanupExpectedMsgs,
      hl, hm, hc] <;>
    split_ifs <;>
    simp_all

/-- Witness for C2: on a concrete record all three steps are attempted
in order and the two failures are aggregated into one semicolon-joined
message. -/
theorem cleanup_container_best_effort_witness :
    initWithRecordB.spec.linux =
        some { cgroupsPath := none, namespaces := some ["mnt"] } ∧
      cenvTwoFailures.cgroupManager = .ok () ∧
      (cleanup_container initWithRecordB cenvTwoFailures).1 =
        cleanupExpectedSteps initWithRecordB ∧
      (cleanupExpectedMsgs initWithRecordB cenvTwoFailures ≠ [] →
        (cleanup_container initWithRecordB cenvTwoFailures).2 =
          .error ("failed to cleanup container: " ++
            String.intercalate ";"
              (cleanupExpectedMsgs initWithRecordB cenvTwoFailures))) :=
  ⟨rfl, rfl,
    (cleanup_container_best_effort initWithRecordB cenvTwoFailures _ rfl
      rfl).1,
    (cleanup_container_best_effort initWithRecordB cenvTwoFailures _ rfl
      rfl).2.2⟩

/-- C10: when cleanup_container cannot check the linux section or
construct its cgroup manager, it returns that error immediately and
attempts none of the three cleanup steps. -/
theorem cleanup_container_early_abort (b : Builder) (env : CleanupEnv) :
    (b.spec.linux = none →
      cleanup_container b env = ([], .error "no linux in spec")) ∧
    (∀ e l, b.spec.linux = some l → env.cgroupManager = .error e →
      cleanup_container b env = ([], .error e)) := by
  constructor
  · intro h
    simp [cleanup_container, h]
  · intro e l hl he
    simp [cleanup_container, hl, he]

/-- Witness for C10: the missing-linux case and the failing-manager case
each return immediately with an empty step list. -/
theorem cleanup_container_early_abort_witness :
    cleanup_container initNoLinuxB cenvManagerFails =
        ([], .error "no linux in spec") ∧
      cleanup_container initWithRecordB cenvManagerFails =
        ([], .error "cgroup manager construction failed") :=
  ⟨(cleanup_container_early_abort initNoLinuxB cenvManagerFails).1 rfl,
    (cleanup_container_early_abort initWithRecordB cenvManagerFails).2
      "cgroup manager construction failed" _ rfl rfl⟩

/-- C4: when the inner run_container fails, create invokes
cleanup_container exactly when the container type is InitContainer; a
tenant failure is propagated without cleanup; the outer run_container
error chain is always preserved in the returned error, and a cleanup
failure is attached as an additional context on top of it. -/
theorem create_cleanup_policy (b : Builder) (env : RunEnv)
    (cenv : CleanupEnv) :
    ((create b env cenv).1 = true ↔
      ((∃ chain, (run_container b env).2 = .error chain) ∧
        b.containerType = ContainerType.InitContainer)) ∧
    (∀ chain, (run_container b env).2 = .error chain →
      (b.containerType = ContainerType.TenantContainer →
        create b env cenv =
          (false, .error ("failed to create container" :: chain))) ∧
      ((cleanup_container b cenv).2 = .ok () →
        b.containerType = ContainerType.InitContainer →
        create b env cenv =
          (true, .error ("failed to create container" :: chain))) ∧
      (∀ inner, (cleanup_container b cenv).2 = .error inner →
        b.containerType = ContainerType.InitContainer →
        create b env cenv =
          (true, .error (inner :: "failed to create container" :: chain)))) := by
  rcases hr : (run_container b env).2 with chain | pr <;>
    rcases hct : b.containerType <;>
    rcases hcl : (cleanup_container b cenv).2 with e | u <;>
    simp_all [create, hr, hct, hcl]

/-- Witness for C4: a concrete init-container failure (missing linux
section) with a failing cleanup; the outer chain is preserved under the
cleanup message. -/
theorem create_cleanup_policy_witness :
    (run_container initNoLinuxB envAllOk).2 =
        .error ["no linux in spec"] ∧
      (cleanup_container initNoLinuxB cenvManagerFails).2 =
        .error "no linux in spec" ∧
      initNoLinuxB.containerType = ContainerType.InitContainer ∧
      create initNoLinuxB envAllOk cenvManagerFails =
        (true, .error
          ["no linux in spec", "failed to create container",
            "no linux in spec"]) :=
  ⟨rfl, rfl, rfl,
    ((create_cleanup_policy initNoLinuxB envAllOk cenvManagerFails).2
      ["no linux in spec"] rfl).2.2 "no linux in spec" rfl rfl⟩

/-- Target preparation issues no syscalls: it leaves the call counter,
the mount log and the setattr log unchanged. -/
theorem prepare_source_logs (env : MountEnv) (typ : Option String)
    (source dest : FsPath) (st : SysState) :
    (prepare_source env typ source dest st).1.mountLog = st.mountLog ∧
      (prepare_source env typ source dest st).1.calls = st.calls ∧
      (prepare_source env typ source dest st).1.setattrLog =
        st.setattrLog := by
  by_cases hb : typ = some "bind"
  · rcases hc : env.canonicalize source with e | src
    · simp [prepare_source, hb, hc]
    · simp only [prepare_source, hb, hc, if_true, reduceIte]
      split_ifs <;> simp
  · simp only [prepare_source, hb, reduceIte]
    split_ifs <;> simp

/-- The mount-attempt step when the first syscall succeeds. -/
theorem attempt_mounts_first_ok (env : MountEnv) (src dest mdest : FsPath)
    (typ : Option String) (cfg : MountOptionConfig) (d : String)
    (st : SysState) (h : env.mountResult st.calls = none) :
    attempt_mounts env src dest mdest typ cfg d st =
      ({ st with
          calls := st.calls + 1
          mountLog := st.mountLog ++
            [⟨some src, dest, typ, cfg.flags, some d⟩] }, .ok ()) := by
  unfold attempt_mounts sysMount
  simp [h]

/-- The mount-attempt step when the first syscall fails with an errno
other than EINVAL: fatal, no retry. -/
theorem attempt_mounts_fatal (env : MountEnv) (src dest mdest : FsPath)
    (typ : Option String) (cfg : MountOptionConfig) (d : String)
    (st : SysState) (e : Errno) (h : env.mountResult st.calls = some e)
    (hne : e ≠ Errno.EINVAL) :
    attempt_mounts env src dest mdest typ cfg d st =
      ({ st with
          calls := st.calls + 1
          mountLog := st.mountLog ++
            [⟨some src, dest, typ, cfg.flags, some d⟩] },
        .error ("mount of " ++ pathStr mdest ++ " failed. " ++ e.str)) := by
  unfold attempt_mounts sysMount
  simp [h, hne]

/-- The mount-attempt step when the first syscall fails with EINVAL and
the retry with the pre-label data succeeds. -/
theorem attempt_mounts_einval_ok (env : MountEnv) (src dest mdest : FsPath)
    (typ : Option String) (cfg : MountOptionConfig) (d : String)
    (st : SysState) (h : env.mountResult st.calls = some Errno.EINVAL)
    (h2 : env.mountResult (st.calls + 1) = none) :
    attempt_mounts env src dest mdest typ cfg d st =
      ({ st with
          calls := st.calls + 2
          mountLog := st.mountLog ++
            [⟨some src, dest, typ, cfg.flags, some d⟩,
              ⟨some src, dest, typ, cfg.flags, some cfg.data⟩] },
        .ok ()) := by
  unfold attempt_mounts sysMount
  simp [h, h2]

/-- The mount-attempt step when the first syscall fails with EINVAL and
the retry fails too: there is no third attempt. -/
theorem attempt_mounts_einval_fail (env : MountEnv)
    (src dest mdest : FsPath) (typ : Option String)
    (cfg : MountOptionConfig) (d : String) (st : SysState) (e2 : Errno)
    (h : env.mountResult st.calls = some Errno.EINVAL)
    (h2 : env.mountResult (st.calls + 1) = some e2) :
    attempt_mounts env src dest mdest typ cfg d st =
      ({ st with
          calls := st.calls + 2
          mountLog := st.mountLog ++
            [⟨some src, dest, typ, cfg.flags, some d⟩,
              ⟨some src, dest, typ, cfg.flags, some cfg.data⟩] },
        .error ("failed to mount " ++ pathStr src ++ " to " ++
          pathStr dest)) := by
  unfold attempt_mounts sysMount
  simp [h, h2]

/-- The remount step when the bind-remount condition holds: one further
mount(dest, dest, null, flags | MS_REMOUNT, null) syscall. -/
theorem maybe_remount_true (env : MountEnv) (dest : FsPath)
    (typ : Option String) (cfg : MountOptionConfig) (st : SysState)
    (h : (typ == some "bind" && remountFlagsPresent cfg.flags) = true) :
    maybe_remount env dest typ cfg st =
      ({ st with
          calls := st.calls + 1
          mountLog := st.mountLog ++ [remountArgs dest cfg.flags] },
        match env.mountResult st.calls with
        | none => .ok ()
        | some _ => .error ("Failed to remount: " ++ pathStr dest)) := by
  unfold maybe_remount sysMount
  rcases hr : env.mountResult st.calls with _ | e <;>
    simp [h, hr, remountArgs]

/-- The remount step when the bind-remount condition fails: no further
syscall. -/
theorem maybe_remount_false (env : MountEnv) (dest : FsPath)
    (typ : Option String) (cfg : MountOptionConfig) (st : SysState)
    (h : (typ == some "bind" && remountFlagsPresent cfg.flags) = false) :
    maybe_remount env dest typ cfg st = (st, .ok ()) := by
  unfold maybe_remount
  simp [h]

/-- The recursive-attribute step issues no mount syscalls: the call
counter, the mount log and the filesystem log are unchanged. -/
theorem apply_rec_attr_logs (env : MountEnv) (cfg : MountOptionConfig)
    (dest : FsPath) (st : SysState) :
    (apply_rec_attr env cfg dest st).1.mountLog = st.mountLog ∧
      (apply_rec_attr env cfg dest st).1.calls = st.calls ∧
      (apply_rec_attr env cfg dest st).1.fsLog = st.fsLog := by
  unfold apply_rec_attr
  rcases cfg.recAttr with _ | a
  · simp
  · by_cases h1 : env.openDirOk dest <;>
      by_cases h2 : env.setattrOk st.setattrLog.length <;>
      simp [h1, h2]

/-- The mount-attempt step leaves the filesystem log unchanged. -/
theorem attempt_mounts_fsLog (env : MountEnv) (src dest mdest : FsPath)
    (typ : Option String) (cfg : MountOptionConfig) (d : String)
    (st : SysState) :
    (attempt_mounts env src dest mdest typ cfg d st).1.fsLog =
      st.fsLog := by
  rcases hr : env.mountResult st.calls with _ | e
  · rw [attempt_mounts_first_ok env src dest mdest typ cfg d st hr]
  · by_cases he : e = Errno.EINVAL
    · subst he
      rcases hr2 : env.mountResult (st.calls + 1) with _ | e2
      · rw [attempt_mounts_einval_ok env src dest mdest typ cfg d st hr hr2]
      · rw [attempt_mounts_einval_fail env src dest mdest typ cfg d st e2
          hr hr2]
    · rw [attempt_mounts_fatal env src dest mdest typ cfg d st e hr he]

/-- The remount step leaves the filesystem log unchanged. -/
theorem maybe_remount_fsLog (env : MountEnv) (dest : FsPath)
    (typ : Option String) (cfg : MountOptionConfig) (st : SysState) :
    (maybe_remount env dest typ cfg st).1.fsLog = st.fsLog := by
  by_cases h : (typ == some "bind" && remountFlagsPresent cfg.flags) = true
  · rw [maybe_remount_true env dest typ cfg st h]
  · rw [maybe_remount_false env dest typ cfg st
      (by simpa using h)]

/-- On success the mount-attempt step appended either the single main
mount invocation or the main invocation followed by the EINVAL retry;
in both cases every appended entry carries a some data argument. -/
theorem attempt_mounts_ok_shape (env : MountEnv) (src dest mdest : FsPath)
    (typ : Option String) (cfg : MountOptionConfig) (d : String)
    (st st2 : SysState) (u : Unit)
    (h : attempt_mounts env src dest mdest typ cfg d st = (st2, .ok u)) :
    st2.mountLog = st.mountLog ++
        [⟨some src, dest, typ, cfg.flags, some d⟩] ∨
      st2.mountLog = st.mountLog ++
        [⟨some src, dest, typ, cfg.flags, some d⟩,
          ⟨some src, dest, typ, cfg.flags, some cfg.data⟩] := by
  rcases hr : env.mountResult st.calls with _ | e
  · rw [attempt_mounts_first_ok env src dest mdest typ cfg d st hr] at h
    left
    rw [← (Prod.mk.injEq _ _ _ _ |>.mp h).1]
  · by_cases he : e = Errno.EINVAL
    · subst he
      rcases hr2 : env.mountResult (st.calls + 1) with _ | e2
      · rw [attempt_mounts_einval_ok env src dest mdest typ cfg d st hr
          hr2] at h
        right
        rw [← (Prod.mk.injEq _ _ _ _ |>.mp h).1]
      · rw [attempt_mounts_einval_fail env src dest mdest typ cfg d st e2
          hr hr2] at h
        exact absurd (Prod.mk.injEq _ _ _ _ |>.mp h).2 (by simp)
    · rw [attempt_mounts_fatal env src dest mdest typ cfg d st e hr he] at h
      exact absurd (Prod.mk.injEq _ _ _ _ |>.mp h).2 (by simp)

/-- Successful executions of mount_into_container decompose into a
successful secure-join, a present source, and successful preparation,
mount-attempt, remount and recursive-attribute steps; the final mount
log is the one left by the remount step and the final filesystem log
the one left by the preparation step. -/
theorem mount_into_container_ok_decomp (env : MountEnv) (m : SpecMount)
    (rootfs : FsPath) (cfg : MountOptionConfig) (label : Option String)
    (st : SysState)
    (hok : (mount_into_container env m rootfs cfg label st).2 = .ok ()) :
    ∃ dest source st1 src st2 st3,
      env.secureJoin rootfs m.destination = .ok dest ∧
        m.source = some source ∧
        prepare_source env m.typ source dest st = (st1, .ok src) ∧
        attempt_mounts env src dest m.destination m.typ cfg
          (labelData cfg m.typ label) st1 = (st2, .ok ()) ∧
        maybe_remount env dest m.typ cfg st2 = (st3, .ok ()) ∧
        (mount_into_container env m rootfs cfg label st).1.mountLog =
          st3.mountLog ∧
        (mount_into_container env m rootfs cfg label st).1.fsLog =
          st1.fsLog := by
  rcases hj : env.secureJoin rootfs m.destination with e | dest
  · simp [mount_into_container, hj] at hok
  rcases hs : m.source with _ | source
  · simp [mount_into_container, hj, hs] at hok
  rcases hp : prepare_source env m.typ source dest st with ⟨st1, r1⟩
  rcases r1 with e | src
  · simp [mount_into_container, hj, hs, hp] at hok
  rcases ha : attempt_mounts env src dest m.destination m.typ cfg
      (labelData cfg m.typ label) st1 with ⟨st2, r2⟩
  rcases r2 with e | u
  · simp [mount_into_container, hj, hs, hp, ha] at hok
  cases u
  rcases hm : maybe_remount env dest m.typ cfg st2 with ⟨st3, r3⟩
  rcases r3 with e | u3
  · simp [mount_into_container, hj, hs, hp, ha, hm] at hok
  cases u3
  have hred : mount_into_container env m rootfs cfg label st =
      apply_rec_attr env cfg dest st3 := by
    simp [mount_into_container, hj, hs, hp, ha, hm]
  refine ⟨dest, source, st1, src, st2, st3, rfl, rfl, hp, ha, hm, ?_, ?_⟩
  · rw [hred]
    exact (apply_rec_attr_logs env cfg dest st3).1
  · rw [hred, (apply_rec_attr_logs env cfg dest st3).2.2]
    have h3 := maybe_remount_fsLog env dest m.typ cfg st2
    rw [hm] at h3
    have h2 := attempt_mounts_fsLog env src dest m.destination m.typ cfg
      (labelData cfg m.typ label) st1
    rw [ha] at h2
    simp only at h3 h2
    rw [h3, h2]

/-- The remount condition of the source holds exactly when the flags
word has a set bit outside the exempt mask. -/
theorem remountFlagsPresent_iff (flags : Nat) :
    remountFlagsPresent flags = true ↔
      ∃ i, flags.testBit i = true ∧
        REMOUNT_EXEMPT_MASK.testBit i = false := by
  have key : flags &&& REMOUNT_EXEMPT_MASK = flags ↔
      ∀ i, flags.testBit i = true →
        REMOUNT_EXEMPT_MASK.testBit i = true := by
    constructor
    · intro h i hf
      have hc := congrArg (fun n => Nat.testBit n i) h
      simp only [Nat.testBit_and, hf, Bool.true_and] at hc
      exact hc
    · intro h
      apply Nat.eq_of_testBit_eq
      intro i
      rw [Nat.testBit_and]
      cases hf : flags.testBit i
      · simp
      · simp [h i hf]
  rw [remountFlagsPresent, bne_iff_ne, ne_eq, key]
  push_neg
  constructor
  · rintro ⟨i, hf, hm⟩
    exact ⟨i, hf, by simpa using hm⟩
  · rintro ⟨i, hf, hm⟩
    exact ⟨i, hf, by simp [hm]⟩

/-- C1: a successful mount_into_container leaves the syscall adapter's
mount log ending with the remount invocation
mount(dest, dest, null, flags | MS_REMOUNT, null) exactly when the
mount type is bind and the parsed flags contain at least one bit
outside {REC, REMOUNT, BIND, PRIVATE, SHARED, SLAVE}. -/
theorem mount_into_container_remount_iff (env : MountEnv) (m : SpecMount)
    (rootfs : FsPath) (cfg : MountOptionConfig) (label : Option String)
    (st : SysState) (dest : FsPath)
    (hdest : env.secureJoin rootfs m.destination = .ok dest)
    (hok : (mount_into_container env m rootfs cfg label st).2 = .ok ()) :
    (∃ pre, (mount_into_container env m rootfs cfg label st).1.mountLog =
        pre ++ [remountArgs dest cfg.flags]) ↔
      (m.typ = some "bind" ∧
        ∃ i, cfg.flags.testBit i = true ∧
          REMOUNT_EXEMPT_MASK.testBit i = false) := by
  obtain ⟨dest', source, st1, src, st2, st3, hj, hs, hp, ha, hm, hlog,
    hfs⟩ := mount_into_container_ok_decomp env m rootfs cfg label st hok
  have hde : dest = dest' := by
    rw [hdest] at hj
    exact (Except.ok.injEq _ _ |>.mp hj)
  subst hde
  by_cases hc : (m.typ == some "bind" && remountFlagsPresent cfg.flags)
      = true
  · rw [maybe_remount_true env dest m.typ cfg st2 hc] at hm
    have h32 : st3.mountLog = st2.mountLog ++ [remountArgs dest cfg.flags] :=
      by rw [← (Prod.mk.injEq _ _ _ _ |>.mp hm).1]
    rw [Bool.and_eq_true, beq_iff_eq] at hc
    constructor
    · intro _
      exact ⟨hc.1, (remountFlagsPresent_iff cfg.flags).mp hc.2⟩
    · intro _
      exact ⟨st2.mountLog, by rw [hlog, h32]⟩
  · rw [maybe_remount_false env dest m.typ cfg st2 (by simpa using hc)]
      at hm
    have h32 : st3.mountLog = st2.mountLog := by
      rw [← (Prod.mk.injEq _ _ _ _ |>.mp hm).1]
    constructor
    · rintro ⟨pre, hpre⟩
      exfalso
      rcases attempt_mounts_ok_shape env src dest m.destination m.typ cfg
          (labelData cfg m.typ label) st1 st2 () ha with h2 | h2 <;>
      · rw [hlog, h32, h2] at hpre
        have hlast := congrArg List.getLast? hpre
        simp [List.getLast?_append, remountArgs] at hlast
    · rintro ⟨htyp, hbits⟩
      exfalso
      apply hc
      rw [Bool.and_eq_true, beq_iff_eq]
      exact ⟨htyp, (remountFlagsPresent_iff cfg.flags).mpr hbits⟩

/-- Witness for C1: a concrete successful read-only bind mount whose
log ends with the remount invocation. -/
theorem mount_into_container_remount_iff_witness :
    mountEnvOk.secureJoin ["rootfs"] bindRoMount.destination =
        .ok ["rootfs", "dev", "null"] ∧
      (mount_into_container mountEnvOk bindRoMount ["rootfs"] roCfg none
        SysState.empty).2 = .ok () ∧
      ((∃ pre, (mount_into_container mountEnvOk bindRoMount ["rootfs"]
            roCfg none SysState.empty).1.mountLog =
          pre ++ [remountArgs ["rootfs", "dev", "null"] roCfg.flags]) ↔
        (bindRoMount.typ = some "bind" ∧
          ∃ i, roCfg.flags.testBit i = true ∧
            REMOUNT_EXEMPT_MASK.testBit i = false)) :=
  ⟨rfl, rfl,
    mount_into_container_remount_iff mountEnvOk bindRoMount ["rootfs"]
      roCfg none SysState.empty ["rootfs", "dev", "null"] rfl rfl⟩

/-- The remount step only ever appends to the mount log. -/
theorem maybe_remount_log_extend (env : MountEnv) (dest : FsPath)
    (typ : Option String) (cfg : MountOptionConfig) (st : SysState) :
    ∃ tail, (maybe_remount env dest typ cfg st).1.mountLog =
      st.mountLog ++ tail := by
  by_cases h : (typ == some "bind" && remountFlagsPresent cfg.flags) = true
  · rw [maybe_remount_true env dest typ cfg st h]
    exact ⟨[remountArgs dest cfg.flags], rfl⟩
  · rw [maybe_remount_false env dest typ cfg st (by simpa using h)]
    exact ⟨[], by simp⟩

/-- After a successful mount attempt, the remaining steps of
mount_into_container only append to the mount log. -/
theorem mount_into_container_log_after_attempt (env : MountEnv)
    (m : SpecMount) (rootfs : FsPath) (cfg : MountOptionConfig)
    (label : Option String) (st : SysState) (dest source : FsPath)
    (st1 st2 : SysState) (src : FsPath)
    (hdest : env.secureJoin rootfs m.destination = .ok dest)
    (hsrc : m.source = some source)
    (hprep : prepare_source env m.typ source dest st = (st1, .ok src))
    (ha : attempt_mounts env src dest m.destination m.typ cfg
      (labelData cfg m.typ label) st1 = (st2, .ok ())) :
    ∃ tail, (mount_into_container env m rootfs cfg label st).1.mountLog =
      st2.mountLog ++ tail := by
  have hred : mount_into_container env m rootfs cfg label st =
      (match maybe_remount env dest m.typ cfg st2 with
        | (st3, .error e) => (st3, .error e)
        | (st3, .ok ()) => apply_rec_attr env cfg dest st3) := by
    simp [mount_into_container, hdest, hsrc, hprep, ha]
  rw [hred]
  obtain ⟨tail, htail⟩ := maybe_remount_log_extend env dest m.typ cfg st2
  rcases hm : maybe_remount env dest m.typ cfg st2 with ⟨st3, r3⟩
  rw [hm] at htail
  rcases r3 with e | u3
  · exact ⟨tail, htail⟩
  · cases u3
    refine ⟨tail, ?_⟩
    rw [(apply_rec_attr_logs env cfg dest st3).1]
    exact htail

/-- C3: in mount_into_container, when the first mount syscall fails the
call is retried exactly once with the pre-label data iff the errno is
EINVAL: a non-EINVAL first failure aborts after that single syscall,
and after an EINVAL failure the log shows the main attempt followed by
the pre-label retry, with no third attempt when the retry also fails. -/
theorem mount_into_container_einval_retry (env : MountEnv) (m : SpecMount)
    (rootfs : FsPath) (cfg : MountOptionConfig) (label : Option String)
    (st : SysState) (dest source : FsPath) (st1 : SysState) (src : FsPath)
    (hdest : env.secureJoin rootfs m.destination = .ok dest)
    (hsrc : m.source = some source)
    (hprep : prepare_source env m.typ source dest st = (st1, .ok src)) :
    (∀ e, env.mountResult st1.calls = some e → e ≠ Errno.EINVAL →
      mount_into_container env m rootfs cfg label st =
        ({ st1 with
            calls := st1.calls + 1
            mountLog := st1.mountLog ++
              [⟨some src, dest, m.typ, cfg.flags,
                some (labelData cfg m.typ label)⟩] },
          .error ("mount of " ++ pathStr m.destination ++ " failed. " ++
            e.str))) ∧
    (env.mountResult st1.calls = some Errno.EINVAL →
      ((mount_into_container env m rootfs cfg label st).1.mountLog.take
          (st1.mountLog.length + 2) =
        st1.mountLog ++
          [⟨some src, dest, m.typ, cfg.flags,
              some (labelData cfg m.typ label)⟩,
            ⟨some src, dest, m.typ, cfg.flags, some cfg.data⟩]) ∧
      (∀ e2, env.mountResult (st1.calls + 1) = some e2 →
        mount_into_container env m rootfs cfg label st =
          ({ st1 with
              calls := st1.calls + 2
              mountLog := st1.mountLog ++
                [⟨some src, dest, m.typ, cfg.flags,
                    some (labelData cfg m.typ label)⟩,
                  ⟨some src, dest, m.typ, cfg.flags, some cfg.data⟩] },
            .error ("failed to mount " ++ pathStr src ++ " to " ++
              pathStr dest)))) := by
  constructor
  · intro e he hne
    have ha := attempt_mounts_fatal env src dest m.destination m.typ cfg
      (labelData cfg m.typ label) st1 e he hne
    simp [mount_into_container, hdest, hsrc, hprep, ha]
  · intro he
    constructor
    · rcases hr2 : env.mountResult (st1.calls + 1) with _ | e2
      · have ha := attempt_mounts_einval_ok env src dest m.destination
          m.typ cfg (labelData cfg m.typ label) st1 he hr2
        obtain ⟨tail, htail⟩ := mount_into_container_log_after_attempt
          env m rootfs cfg label st dest source st1 _ src hdest hsrc
          hprep ha
        rw [htail]
        have hlen : st1.mountLog.length + 2 =
            (({ st1 with
                calls := st1.calls + 2
                mountLog := st1.mountLog ++
                  [⟨some src, dest, m.typ, cfg.flags,
                      some (labelData cfg m.typ label)⟩,
                    ⟨some src, dest, m.typ, cfg.flags, some cfg.data⟩] } :
              SysState)).mountLog.length := by simp
        rw [hlen, List.take_left]
      · have ha := attempt_mounts_einval_fail env src dest m.destination
          m.typ cfg (labelData cfg m.typ label) st1 e2 he hr2
        have hred : mount_into_container env m rootfs cfg label st =
            ({ st1 with
                calls := st1.calls + 2
                mountLog := st1.mountLog ++
                  [⟨some src, dest, m.typ, cfg.flags,
                      some (labelData cfg m.typ label)⟩,
                    ⟨some src, dest, m.typ, cfg.flags, some cfg.data⟩] },
              .error ("failed to mount " ++ pathStr src ++ " to " ++
                pathStr dest)) := by
          simp [mount_into_container, hdest, hsrc, hprep, ha]
        rw [hred]
        simp
    · intro e2 hr2
      have ha := attempt_mounts_einval_fail env src dest m.destination
        m.typ cfg (labelData cfg m.typ label) st1 e2 he hr2
      simp [mount_into_container, hdest, hsrc, hprep, ha]

/-- Witness for C3: a concrete run whose first syscall fails with
EINVAL; the log shows the labelled attempt followed by the pre-label
retry. -/
theorem mount_into_container_einval_retry_witness :
    prepare_source einvalEnv devptsMount.typ ["devpts"]
        ["rootfs", "dev", "pts"] SysState.empty = (st1W, .ok ["devpts"]) ∧
      einvalEnv.mountResult st1W.calls = some Errno.EINVAL ∧
      ((mount_into_container einvalEnv devptsMount ["rootfs"] ptsCfg
          (some "defaults") SysState.empty).1.mountLog.take
            (st1W.mountLog.length + 2) =
        st1W.mountLog ++
          [⟨some ["devpts"], ["rootfs", "dev", "pts"], devptsMount.typ,
              ptsCfg.flags,
              some (labelData ptsCfg devptsMount.typ (some "defaults"))⟩,
            ⟨some ["devpts"], ["rootfs", "dev", "pts"], devptsMount.typ,
              ptsCfg.flags, some ptsCfg.data⟩]) :=
  ⟨rfl, rfl,
    ((mount_into_container_einval_retry einvalEnv devptsMount ["rootfs"]
        ptsCfg (some "defaults") SysState.empty ["rootfs", "dev", "pts"]
        ["devpts"] st1W ["devpts"] rfl rfl rfl).2 rfl).1⟩

/-- Characterization of successful target preparation: for a bind mount
the returned source is the canonicalized one and the filesystem log
records the parent-directory-plus-file creation (regular-file source)
or the destination-directory creation (other source); for any other
type the literal source is returned and the destination directory is
created. -/
theorem prepare_source_ok (env : MountEnv) (typ : Option String)
    (source dest : FsPath) (st st1 : SysState) (src : FsPath)
    (h : prepare_source env typ source dest st = (st1, .ok src)) :
    (typ = some "bind" →
      env.canonicalize source = .ok src ∧
        (env.isFile src = true →
          st1.fsLog = st.fsLog ++
            [FsEvent.createDirAll (parentPath dest),
              FsEvent.createFile dest]) ∧
        (env.isFile src = false →
          st1.fsLog = st.fsLog ++ [FsEvent.createDirAll dest])) ∧
    (typ ≠ some "bind" →
      src = source ∧
        st1.fsLog = st.fsLog ++ [FsEvent.createDirAll dest]) := by
  by_cases hb : typ = some "bind"
  · rcases hc : env.canonicalize source with e | src'
    · simp [prepare_source, hb, hc] at h
    · simp only [prepare_source, hb, hc, if_true, reduceIte] at h
      split_ifs at h with h1 h2 h3
      all_goals
        first
        | { rw [Prod.mk.injEq] at h
            obtain ⟨hst, hs'⟩ := h
            rw [Except.ok.injEq] at hs'
            subst hs'
            subst hst
            refine ⟨fun _ => ⟨rfl, ?_, ?_⟩, fun hnb => absurd hb hnb⟩ <;>
              intro hf <;> simp_all }
        | simp at h
  · rcases h1 : env.createDirAllOk dest with _ | _ <;>
      simp only [prepare_source, hb, h1, if_true, if_false, reduceIte,
        Bool.false_eq_true] at h
    · simp at h
    · rw [Prod.mk.injEq] at h
      obtain ⟨hst, hs'⟩ := h
      rw [Except.ok.injEq] at hs'
      subst hs'
      subst hst
      exact ⟨fun hbb => absurd hbb hb, fun _ => ⟨rfl, by simp⟩⟩

/-- Indexing the element just after a prefix of an appended list. -/
theorem get_append_cons {α : Type} (l : List α) (a : α) (t : List α) :
    (l ++ a :: t).get? l.length = some a := by
  rw [List.get?_append_right (le_refl l.length)]
  simp

/-- C6: for a successful mount_into_container of a bind mount the source
is canonicalized and, depending on whether the canonical source is a
regular file, the destination's parent directory and the destination
file, or the destination directory, are created; for any other type the
destination directory is created and the literal source is passed to
the mount syscall uncanonicalized. -/
theorem mount_into_container_target_prep (env : MountEnv) (m : SpecMount)
    (rootfs : FsPath) (cfg : MountOptionConfig) (label : Option String)
    (st : SysState) (dest source : FsPath)
    (hdest : env.secureJoin rootfs m.destination = .ok dest)
    (hsrc : m.source = some source)
    (hok : (mount_into_container env m rootfs cfg label st).2 = .ok ()) :
    (∀ src, m.typ = some "bind" → env.canonicalize source = .ok src →
      env.isFile src = true →
      (mount_into_container env m rootfs cfg label st).1.fsLog =
        st.fsLog ++ [FsEvent.createDirAll (parentPath dest),
          FsEvent.createFile dest] ∧
      (mount_into_container env m rootfs cfg label st).1.mountLog.get?
          st.mountLog.length =
        some ⟨some src, dest, m.typ, cfg.flags,
          some (labelData cfg m.typ label)⟩) ∧
    (∀ src, m.typ = some "bind" → env.canonicalize source = .ok src →
      env.isFile src = false →
      (mount_into_container env m rootfs cfg label st).1.fsLog =
        st.fsLog ++ [FsEvent.createDirAll dest] ∧
      (mount_into_container env m rootfs cfg label st).1.mountLog.get?
          st.mountLog.length =
        some ⟨some src, dest, m.typ, cfg.flags,
          some (labelData cfg m.typ label)⟩) ∧
    (m.typ ≠ some "bind" →
      (mount_into_container env m rootfs cfg label st).1.fsLog =
        st.fsLog ++ [FsEvent.createDirAll dest] ∧
      (mount_into_container env m rootfs cfg label st).1.mountLog.get?
          st.mountLog.length =
        some ⟨some source, dest, m.typ, cfg.flags,
          some (labelData cfg m.typ label)⟩) := by
  obtain ⟨dest', source', st1, src', st2, st3, hj, hs, hp, ha, hm, hlog,
    hfs⟩ := mount_into_container_ok_decomp env m rootfs cfg label st hok
  have hde : dest = dest' := by
    rw [hdest] at hj
    exact (Except.ok.injEq _ _ |>.mp hj)
  subst hde
  have hse : source = source' := by
    rw [hsrc] at hs
    exact (Option.some.injEq _ _ |>.mp hs)
  subst hse
  have hlog1 : st1.mountLog = st.mountLog := by
    have := (prepare_source_logs env m.typ source dest st).1
    rw [hp] at this
    exact this
  obtain ⟨remTail, hrem⟩ := maybe_remount_log_extend env dest m.typ cfg st2
  rw [hm] at hrem
  simp only at hrem
  have hprep := prepare_source_ok env m.typ source dest st st1 src' hp
  have hget : (mount_into_container env m rootfs cfg label st).1.mountLog.get?
      st.mountLog.length =
      some ⟨some src', dest, m.typ, cfg.flags,
        some (labelData cfg m.typ label)⟩ := by
    rw [hlog, hrem]
    rcases attempt_mounts_ok_shape env src' dest m.destination m.typ cfg
        (labelData cfg m.typ label) st1 st2 () ha with h2 | h2 <;>
      rw [h2, hlog1, List.append_assoc] <;>
      simp only [List.cons_append, List.nil_append] <;>
      exact get_append_cons _ _ _
  refine ⟨?_, ?_, ?_⟩
  · intro src hb hcan hf
    obtain ⟨hc', himpl1, _⟩ := hprep.1 hb
    have : src' = src := by
      rw [hcan] at hc'
      exact (Except.ok.injEq _ _ |>.mp hc'.symm)
    subst this
    exact ⟨by rw [hfs, himpl1 hf], hget⟩
  · intro src hb hcan hf
    obtain ⟨hc', _, himpl2⟩ := hprep.1 hb
    have : src' = src := by
      rw [hcan] at hc'
      exact (Except.ok.injEq _ _ |>.mp hc'.symm)
    subst this
    exact ⟨by rw [hfs, himpl2 hf], hget⟩
  · intro hnb
    obtain ⟨hseq, hfslog⟩ := hprep.2 hnb
    subst hseq
    exact ⟨by rw [hfs, hfslog], hget⟩

/-- Witness for C6: a concrete successful bind mount of the regular
file /tmp/null creates the destination's parent directory and the
destination file, and mounts the canonicalized source. -/
theorem mount_into_container_target_prep_witness :
    mountEnvFile.secureJoin ["rootfs"] bindRoMount.destination =
        .ok ["rootfs", "dev", "null"] ∧
      bindRoMount.source = some ["tmp", "null"] ∧
      (mount_into_container mountEnvFile bindRoMount ["rootfs"] roCfg none
        SysState.empty).2 = .ok () ∧
      ((mount_into_container mountEnvFile bindRoMount ["rootfs"] roCfg
          none SysState.empty).1.fsLog =
        SysState.empty.fsLog ++
          [FsEvent.createDirAll (parentPath ["rootfs", "dev", "null"]),
            FsEvent.createFile ["rootfs", "dev", "null"]] ∧
      (mount_into_container mountEnvFile bindRoMount ["rootfs"] roCfg
          none SysState.empty).1.mountLog.get?
        SysState.empty.mountLog.length =
        some ⟨some ["tmp", "null"], ["rootfs", "dev", "null"],
          bindRoMount.typ, roCfg.flags,
          some (labelData roCfg bindRoMount.typ none)⟩) :=
  ⟨rfl, rfl, rfl,
    (mount_into_container_target_prep mountEnvFile bindRoMount ["rootfs"]
        roCfg none SysState.empty ["rootfs", "dev", "null"] ["tmp", "null"]
        rfl rfl rfl).1 ["tmp", "null"] rfl rfl rfl⟩

/-- C5: mount_cgroup_v2 first attempts a cgroup2-type mount at the
destination with an empty option list; when that attempt fails it falls
back to a bind mount of the host unified mount point joined with the
process's v2 cgroup path, adding MS_BIND to a clone of the option
config; without a hierarchy-0 entry in the process cgroups the fallback
is fatal. -/
theorem mount_cgroup_v2_strategy (env : MountEnv) (m : SpecMount)
    (opts : MountOptions) (cfg : MountOptionConfig) (st : SysState) :
    (∀ st1, mount_into_container env
        ⟨m.destination, some "cgroup2", some ["cgroup"], []⟩ opts.root cfg
        opts.label st = (st1, .ok ()) →
      mount_cgroup_v2 env m opts cfg st = (st1, .ok ())) ∧
    (∀ st1 e eu, mount_into_container env
        ⟨m.destination, some "cgroup2", some ["cgroup"], []⟩ opts.root cfg
        opts.label st = (st1, .error e) →
      env.getUnifiedMountPoint = .error eu →
      mount_cgroup_v2 env m opts cfg st =
        (st1, .error "failed to get unified mount point")) ∧
    (∀ st1 e hm ep, mount_into_container env
        ⟨m.destination, some "cgroup2", some ["cgroup"], []⟩ opts.root cfg
        opts.label st = (st1, .error e) →
      env.getUnifiedMountPoint = .ok hm →
      env.processCgroups = .error ep →
      mount_cgroup_v2 env m opts cfg st =
        (st1, .error "failed to get process cgroups")) ∧
    (∀ st1 e hm l, mount_into_container env
        ⟨m.destination, some "cgroup2", some ["cgroup"], []⟩ opts.root cfg
        opts.label st = (st1, .error e) →
      env.getUnifiedMountPoint = .ok hm →
      env.processCgroups = .ok l →
      l.find? (fun c => c.hierarchy == 0) = none →
      mount_cgroup_v2 env m opts cfg st =
        (st1, .error "failed to find unified process cgroup")) ∧
    (∀ st1 e hm l c src2 st2, mount_into_container env
        ⟨m.destination, some "cgroup2", some ["cgroup"], []⟩ opts.root cfg
        opts.label st = (st1, .error e) →
      env.getUnifiedMountPoint = .ok hm →
      env.processCgroups = .ok l →
      l.find? (fun c => c.hierarchy == 0) = some c →
      env.joinSafely hm c.pathname = .ok src2 →
      mount_into_container env
        ⟨m.destination, some "bind", some src2, []⟩ opts.root
        { cfg with flags := cfg.flags ||| MS_BIND } opts.label st1 =
          (st2, .ok ()) →
      mount_cgroup_v2 env m opts cfg st = (st2, .ok ())) ∧
    (∀ st1 e hm l c src2 st2 e2, mount_into_container env
        ⟨m.destination, some "cgroup2", some ["cgroup"], []⟩ opts.root cfg
        opts.label st = (st1, .error e) →
      env.getUnifiedMountPoint = .ok hm →
      env.processCgroups = .ok l →
      l.find? (fun c => c.hierarchy == 0) = some c →
      env.joinSafely hm c.pathname = .ok src2 →
      mount_into_container env
        ⟨m.destination, some "bind", some src2, []⟩ opts.root
        { cfg with flags := cfg.flags ||| MS_BIND } opts.label st1 =
          (st2, .error e2) →
      mount_cgroup_v2 env m opts cfg st =
        (st2, .error "failed to bind mount cgroup hierarchy")) := by
  refine ⟨?_, ?_, ?_, ?_, ?_, ?_⟩
  · intro st1 h1
    simp [mount_cgroup_v2, h1]
  · intro st1 e eu h1 hu
    simp [mount_cgroup_v2, h1, hu]
  · intro st1 e hm ep h1 hu hpc
    simp [mount_cgroup_v2, h1, hu, hpc, Except.map]
  · intro st1 e hm l h1 hu hpc hfind
    simp [mount_cgroup_v2, h1, hu, hpc, hfind, Except.map]
  · intro st1 e hm l c src2 st2 h1 hu hpc hfind hjoin h2
    simp [mount_cgroup_v2, h1, hu, hpc, hfind, hjoin, h2, Except.map]
  · intro st1 e hm l c src2 st2 e2 h1 hu hpc hfind hjoin h2
    simp [mount_cgroup_v2, h1, hu, hpc, hfind, hjoin, h2, Except.map]

/-- Witness for C5: with a failing primary mount and no hierarchy-0
entry in /proc/self/cgroup, the fallback is fatal. -/
theorem mount_cgroup_v2_strategy_witness :
    mount_into_container epermEnv
        ⟨cgroupSpecMount.destination, some "cgroup2", some ["cgroup"], []⟩
        v2opts.root v2cfg v2opts.label SysState.empty =
      (st1W5, .error "mount of /sys/fs/cgroup failed. EPERM") ∧
      epermEnv.getUnifiedMountPoint = .ok ["hostcg"] ∧
      epermEnv.processCgroups = .ok [] ∧
      mount_cgroup_v2 epermEnv cgroupSpecMount v2opts v2cfg
        SysState.empty =
        (st1W5, .error "failed to find unified process cgroup") :=
  ⟨rfl, rfl, rfl,
    (mount_cgroup_v2_strategy epermEnv cgroupSpecMount v2opts v2cfg
        SysState.empty).2.2.2.1 st1W5
      "mount of /sys/fs/cgroup failed. EPERM" ["hostcg"] [] rfl rfl rfl
      rfl⟩

/-- C9: in setup_mount, for a non-cgroup mount whose destination is
exactly /dev, MS_RDONLY is cleared from the parsed flags before
mount_into_container is called, every other flag bit being kept; for any
other non-cgroup destination the parsed config is passed unchanged. -/
theorem setup_mount_dev_rdonly (fuel : Nat) (env : MountEnv)
    (m : SpecMount) (opts : MountOptions) (st : SysState)
    (ht : m.typ ≠ some "cgroup") :
    (m.destination = ["dev"] →
      setup_mount (fuel + 1) env m opts st =
        mount_into_container env m opts.root
          { env.parseMount m with
            flags := clearFlags (env.parseMount m).flags MS_RDONLY }
          opts.label st ∧
      (clearFlags (env.parseMount m).flags MS_RDONLY).testBit 0 = false ∧
      ∀ i, i ≠ 0 →
        (clearFlags (env.parseMount m).flags MS_RDONLY).testBit i =
          (env.parseMount m).flags.testBit i) ∧
    (m.destination ≠ ["dev"] →
      setup_mount (fuel + 1) env m opts st =
        mount_into_container env m opts.root (env.parseMount m)
          opts.label st) := by
  constructor
  · intro hd
    refine ⟨?_, ?_, ?_⟩
    · simp [setup_mount, ht, hd]
    · rw [clearFlags, Nat.testBit_xor, Nat.testBit_and]
      have h1 : Nat.testBit MS_RDONLY 0 = true := by decide
      rw [h1, Bool.and_true, Bool.xor_self]
    · intro i hi
      rw [clearFlags, Nat.testBit_xor, Nat.testBit_and]
      have h1 : Nat.testBit MS_RDONLY i = false := by
        rcases i with _ | j
        · exact absurd rfl hi
        · rw [MS_RDONLY, Nat.testBit_succ]
          simp
      rw [h1, Bool.and_false, Bool.xor_false]
  · intro hd
    simp [setup_mount, ht, hd]

/-- Witness for C9: on a concrete non-cgroup /dev mount the parsed
flags reach mount_into_container with MS_RDONLY cleared and every other
bit kept. -/
theorem setup_mount_dev_rdonly_witness :
    devMount.typ ≠ some "cgroup" ∧
      devMount.destination = ["dev"] ∧
      (setup_mount 1 c9env devMount c9opts SysState.empty =
        mount_into_container c9env devMount c9opts.root
          { c9env.parseMount devMount with
            flags := clearFlags (c9env.parseMount devMount).flags
              MS_RDONLY }
          c9opts.label SysState.empty ∧
      (clearFlags (c9env.parseMount devMount).flags MS_RDONLY).testBit 0 =
        false ∧
      ∀ i, i ≠ 0 →
        (clearFlags (c9env.parseMount devMount).flags MS_RDONLY).testBit
            i =
          (c9env.parseMount devMount).flags.testBit i) :=
  ⟨by decide, rfl,
    (setup_mount_dev_rdonly 0 c9env devMount c9opts SysState.empty
      (by decide)).1 rfl⟩
